import Mathlib

/-!
Shallow embedding of the SiteLens property-analysis core
(`backend/app/services/planning_service.py` and
`backend/app/services/property_sales_service.py`) together with proofs
settling the frozen claims about it.

Modelling conventions:
* Python floats are modelled as exact rationals (`ℚ`); the two places the
  source uses genuinely irrational operations (`** 0.5` and the
  trigonometric haversine formula) are modelled over `ℝ`.
* Python `None` becomes `Option`; Python truthiness of an optional number
  (`None` and `0` are falsy) is `truthyQ`.
* `date` values are modelled as proleptic-Gregorian day numbers (`ℤ`),
  with explicit conversions mirroring `datetime.date` arithmetic.
* Results of external ArcGIS queries are inputs of the embedded
  functions (the I/O boundary); everything after the query is translated
  from the source.
-/

set_option linter.unusedVariables false

namespace SiteLens

/-- Python truthiness of an optional number: `None` and `0` are falsy. -/
def truthyQ : Option ℚ → Bool
  | none => false
  | some v => v != 0

/-- Python `x or d` for an optional number `x`: falsy (`None`/`0`) falls through to `d`. -/
def pyOrQ (a : Option ℚ) (d : ℚ) : ℚ :=
  match a with
  | some v => if v = 0 then d else v
  | none => d

/-- Python `int()` applied to a number: truncation toward zero. -/
def pyInt (q : ℚ) : ℤ := if q < 0 then ⌈q⌉ else ⌊q⌋

/-- The characters of `s` before the first occurrence of `c`
(Python `s.split(c)[0]` for a single-character separator). -/
def strBeforeChar (s : String) (c : Char) : String :=
  String.mk (s.toList.takeWhile (fun d => d ≠ c))

/-- Python `str.strip()`: drop leading and trailing whitespace. -/
def pyStrip (s : String) : String :=
  String.mk (((s.toList.dropWhile Char.isWhitespace).reverse.dropWhile Char.isWhitespace).reverse)

/-- Python `str.upper()` (ASCII, which covers every string the service handles). -/
def pyUpper (s : String) : String := String.mk (s.toList.map Char.toUpper)

/-- Whether `needle` occurs as a contiguous sublist. -/
def listContainsSub (needle : List Char) : List Char → Bool
  | [] => needle.isPrefixOf []
  | h :: t => needle.isPrefixOf (h :: t) || listContainsSub needle t

/-- Python substring test `needle in hay`. -/
def containsSub (hay needle : String) : Bool := listContainsSub needle.toList hay.toList

/-- `app.schemas.planning.AustralianState`. -/
inductive AustralianState
  | NSW | QLD | VIC | SA | WA | TAS | NT | ACT
deriving DecidableEq, Repr

/-- `app.schemas.planning.ZoneCategory`. -/
inductive ZoneCategory
  | residential | commercial | industrial | rural | environmental
  | recreation | special_purpose | mixed_use | infrastructure | waterway
deriving DecidableEq, Repr

/-- `app.schemas.planning.ControlType`. -/
inductive ControlType
  | height | fsr | lot_size | setback_front | setback_side | setback_rear
  | site_coverage | landscaping | car_parking | dwelling_density
deriving DecidableEq, Repr

/-- `app.schemas.planning.DevelopmentControl` (the `conditions` dict is never
set by the service and is omitted). -/
structure DevelopmentControl where
  control_type : ControlType
  name : String
  min_value : Option ℚ := none
  max_value : Option ℚ := none
  unit : String
  notes : Option String := none
deriving DecidableEq, Repr

/-- `app.schemas.planning.ZoningInfo`. -/
structure ZoningInfo where
  zone_code : String
  zone_name : String
  zone_category : ZoneCategory
  description : Option String := none
  permitted_uses : List String := []
  prohibited_uses : List String := []
  objectives : List String := []
  lga_name : Option String := none
  source : Option String := none
deriving DecidableEq, Repr

/-- `app.schemas.planning.DevelopmentControlsSet`. -/
structure DevelopmentControlsSet where
  height_limit : Option DevelopmentControl := none
  fsr : Option DevelopmentControl := none
  lot_size : Option DevelopmentControl := none
  setbacks : List DevelopmentControl := []
  site_coverage : Option DevelopmentControl := none
  landscaping : Option DevelopmentControl := none
  car_parking : Option DevelopmentControl := none
  other_controls : List DevelopmentControl := []
  estimated_gfa : Option ℚ := none
  estimated_storeys : Option ℤ := none
  estimated_dwellings : Option ℤ := none
deriving DecidableEq, Repr

/-- One entry of `SubdivisionPotential.lot_configurations`
(a dict `{"lots": n, "avg_size": a}` in the source). -/
structure LotConfig where
  lots : ℤ
  avg_size : ℚ
deriving DecidableEq, Repr

/-- `app.schemas.planning.SubdivisionPotential`. -/
structure SubdivisionPotential where
  can_subdivide : Bool
  min_lot_size : Option ℚ := none
  potential_lots : ℤ := 0
  lot_configurations : List LotConfig := []
  constraints : List String := []
  required_approvals : List String := []
deriving DecidableEq, Repr

/-- `PlanningService.ZONE_CATEGORY_MAP` (the static code→category table). -/
def ZONE_CATEGORY_MAP (code : String) : Option ZoneCategory :=
  if code = "R1" then some .residential
  else if code = "R2" then some .residential
  else if code = "R3" then some .residential
  else if code = "R4" then some .residential
  else if code = "R5" then some .rural
  else if code = "B1" then some .commercial
  else if code = "B2" then some .commercial
  else if code = "B3" then some .commercial
  else if code = "B4" then some .mixed_use
  else if code = "B5" then some .commercial
  else if code = "B6" then some .commercial
  else if code = "B7" then some .commercial
  else if code = "IN1" then some .industrial
  else if code = "IN2" then some .industrial
  else if code = "IN3" then some .industrial
  else if code = "IN4" then some .industrial
  else if code = "SP1" then some .special_purpose
  else if code = "SP2" then some .infrastructure
  else if code = "SP3" then some .special_purpose
  else if code = "SP5" then some .commercial
  else if code = "MU1" then some .mixed_use
  else if code = "RE1" then some .recreation
  else if code = "RE2" then some .recreation
  else if code = "E1" then some .environmental
  else if code = "E2" then some .environmental
  else if code = "E3" then some .environmental
  else if code = "E4" then some .environmental
  else if code = "RU1" then some .rural
  else if code = "RU2" then some .rural
  else if code = "RU3" then some .rural
  else if code = "RU4" then some .rural
  else if code = "RU5" then some .rural
  else if code = "RU6" then some .rural
  else if code = "W1" then some .waterway
  else if code = "W2" then some .waterway
  else if code = "W3" then some .waterway
  else if code = "LDR" then some .residential
  else if code = "LMR" then some .residential
  else if code = "MDR" then some .residential
  else if code = "HDR" then some .residential
  else if code = "CR" then some .residential
  else if code = "NC" then some .commercial
  else if code = "DC" then some .commercial
  else if code = "MC" then some .commercial
  else if code = "PC" then some .commercial
  else if code = "LI" then some .industrial
  else if code = "MI" then some .industrial
  else if code = "HI" then some .industrial
  else if code = "SR" then some .rural
  else if code = "RR" then some .rural
  else if code = "RL" then some .rural
  else if code = "OS" then some .recreation
  else if code = "SP" then some .special_purpose
  else if code = "CF" then some .special_purpose
  else if code = "EC" then some .environmental
  else if code = "EM" then some .environmental
  else none

/-- `PlanningService._get_zone_category`: strip a parenthesised suffix,
trim, uppercase, look the base code up, defaulting to `special_purpose`. -/
def get_zone_category (zone_code : String) : ZoneCategory :=
  let base_code := pyUpper (pyStrip (strBeforeChar zone_code '('))
  (ZONE_CATEGORY_MAP base_code).getD ZoneCategory.special_purpose

/-- The minimum-lot-size selection inside
`PlanningService._calculate_subdivision_potential`: controls value when
present and truthy, else a category/zone-code keyed default. -/
def subdivision_min_lot (zoning : ZoningInfo) (controls : DevelopmentControlsSet) : ℚ :=
  if truthyQ (controls.lot_size.bind DevelopmentControl.min_value) then
    (controls.lot_size.bind DevelopmentControl.min_value).getD 0
  else if zoning.zone_category = ZoneCategory.rural then 4000
  else if zoning.zone_category = ZoneCategory.residential then
    if containsSub zoning.zone_code "R2" || containsSub zoning.zone_code "LDR" then 450
    else if containsSub zoning.zone_code "R3" || containsSub zoning.zone_code "LMR" then 300
    else if containsSub zoning.zone_code "R4" || containsSub zoning.zone_code "MDR" then 200
    else 450
  else 450

/-- `PlanningService._calculate_subdivision_potential`. -/
def calculate_subdivision_potential (zoning : ZoningInfo)
    (controls : DevelopmentControlsSet) (lot_area_sqm : Option ℚ) :
    SubdivisionPotential :=
  if ¬ truthyQ lot_area_sqm then { can_subdivide := false }
  else
    let lot := lot_area_sqm.getD 0
    let min_lot := subdivision_min_lot zoning controls
    let potential_lots : ℤ := pyInt (lot / min_lot)
    if 2 ≤ potential_lots then
      { can_subdivide := true
        min_lot_size := some min_lot
        potential_lots := potential_lots
        lot_configurations :=
          [⟨2, lot / 2⟩] ++ (if 3 ≤ potential_lots then [⟨3, lot / 3⟩] else [])
        required_approvals := ["Development Application for Subdivision"] }
    else
      { can_subdivide := false, min_lot_size := some min_lot }

/-- The post-processing tail of `PlanningService.get_development_controls`
(lines 418–425): derive `estimated_gfa` from lot area and FSR, and
`estimated_storeys` from the height limit. -/
def postprocess_controls (controls : DevelopmentControlsSet)
    (lot_area_sqm : Option ℚ) : DevelopmentControlsSet :=
  let c1 :=
    if truthyQ lot_area_sqm ∧ controls.fsr.isSome then
      { controls with
        estimated_gfa :=
          some (lot_area_sqm.getD 0 *
            pyOrQ (controls.fsr.bind DevelopmentControl.max_value) (1/2)) }
    else controls
  if truthyQ (c1.height_limit.bind DevelopmentControl.max_value) then
    { c1 with
      estimated_storeys :=
        some (pyInt ((c1.height_limit.bind DevelopmentControl.max_value).getD 0 / (16/5))) }
  else c1

/-- `PlanningService._get_default_setbacks`: the static category-keyed setback table. -/
def get_default_setbacks (zone_code : String) : List DevelopmentControl :=
  let category := get_zone_category zone_code
  if category = ZoneCategory.residential then
    [ { control_type := .setback_front, name := "Front Setback", min_value := some 6, unit := "m" }
    , { control_type := .setback_side, name := "Side Setback", min_value := some (9/10), unit := "m" }
    , { control_type := .setback_rear, name := "Rear Setback", min_value := some 6, unit := "m" } ]
  else if category = ZoneCategory.commercial then
    [ { control_type := .setback_front, name := "Front Setback", min_value := some 0, unit := "m" } ]
  else []

/-- The `height_defaults` table inside `PlanningService._get_default_controls`. -/
def height_defaults : ZoneCategory → Option ℚ
  | .residential => some 9
  | .commercial => some 15
  | .industrial => some 15
  | .mixed_use => some 24
  | .rural => some 9
  | _ => none

/-- The `fsr_defaults` table inside `PlanningService._get_default_controls`. -/
def fsr_defaults : ZoneCategory → Option ℚ
  | .residential => some (1/2)
  | .commercial => some (3/2)
  | .industrial => some 1
  | .mixed_use => some 2
  | .rural => some (3/10)
  | _ => none

/-- `PlanningService._get_default_controls`. -/
def get_default_controls (zone_code : String) : DevelopmentControlsSet :=
  let category := get_zone_category zone_code
  { height_limit := (height_defaults category).map fun h =>
      { control_type := .height, name := "Maximum Building Height (Default)"
        max_value := some h, unit := "m"
        notes := some "Default value - check local planning controls" }
    fsr := (fsr_defaults category).map fun r =>
      { control_type := .fsr, name := "Floor Space Ratio (Default)"
        max_value := some r, unit := "ratio"
        notes := some "Default value - check local planning controls" }
    setbacks := get_default_setbacks zone_code }

/-- The outcome of the three NSW control-layer queries inside
`PlanningService._get_nsw_controls`, at the I/O boundary: each field is the
defensively parsed numeric value of the corresponding layer when the query
returned a feature with a truthy, parseable value, and `none` otherwise
(missing feature, falsy field, or parse failure — the source drops the
control in all those cases). -/
structure NswControlsEnv where
  height_parsed : Option ℚ := none
  fsr_parsed : Option ℚ := none
  lot_size_parsed : Option ℚ := none
deriving DecidableEq, Repr

/-- `PlanningService._get_nsw_controls` after the query/parse boundary
(`NswControlsEnv`): build the control records and attach default setbacks. -/
def get_nsw_controls (env : NswControlsEnv) (zone_code : String) : DevelopmentControlsSet :=
  { height_limit := env.height_parsed.map fun h =>
      { control_type := .height, name := "Maximum Building Height"
        max_value := some h, unit := "m" }
    fsr := env.fsr_parsed.map fun r =>
      { control_type := .fsr, name := "Floor Space Ratio"
        max_value := some r, unit := "ratio" }
    lot_size := env.lot_size_parsed.map fun v =>
      { control_type := .lot_size, name := "Minimum Lot Size"
        min_value := some v, unit := "sqm" }
    setbacks := get_default_setbacks zone_code }

/-- `PlanningService._get_qld_controls`: QLD falls back to the category defaults. -/
def get_qld_controls (zone_code : String) : DevelopmentControlsSet :=
  get_default_controls zone_code

/-- `PlanningService.get_development_controls`: jurisdiction dispatch followed by
the `estimated_gfa`/`estimated_storeys` post-processing. -/
def get_development_controls (state : AustralianState) (env : NswControlsEnv)
    (zone_code : String) (lot_area_sqm : Option ℚ) : DevelopmentControlsSet :=
  let controls :=
    match state with
    | .NSW => get_nsw_controls env zone_code
    | .QLD => get_qld_controls zone_code
    | _ => get_default_controls zone_code
  postprocess_controls controls lot_area_sqm

/-- Python truthiness of an optional string: `None` and `""` are falsy. -/
def truthyS : Option String → Bool
  | none => false
  | some s => s != ""

/-- Python `a or b` for optional strings. -/
def pyOrSO (a b : Option String) : Option String := if truthyS a then a else b

/-- Python `a or d` for an optional string and a string literal default. -/
def pyOrS (a : Option String) (d : String) : String :=
  match a with
  | some s => if s = "" then d else s
  | none => d

/-- Python `str.lower()` (ASCII). -/
def pyLower (s : String) : String := String.mk (s.toList.map Char.toLower)

/-- `PlanningService._get_nsw_permitted_uses`. -/
def get_nsw_permitted_uses (zone_code : String) : List String :=
  let k := pyUpper zone_code
  if k = "R1" then ["Dwelling houses", "Boarding houses", "Child care centres"]
  else if k = "R2" then ["Dwelling houses", "Dual occupancies", "Group homes"]
  else if k = "R3" then ["Attached dwellings", "Boarding houses", "Multi dwelling housing"]
  else if k = "R4" then ["Residential flat buildings", "Shop top housing", "Hostels"]
  else if k = "B1" then ["Commercial premises", "Child care centres", "Medical centres"]
  else if k = "B2" then ["Commercial premises", "Retail premises", "Tourist facilities"]
  else if k = "B4" then ["Shop top housing", "Commercial premises", "Residential flat buildings"]
  else if k = "IN1" then ["General industries", "Warehouses", "Freight transport facilities"]
  else if k = "IN2" then ["Light industries", "Warehouses", "Hardware and building supplies"]
  else ["Contact council for permitted uses"]

/-- `PlanningService._get_nsw_zone_objectives`. -/
def get_nsw_zone_objectives (zone_code : String) : List String :=
  let k := pyUpper zone_code
  if k = "R2" then
    [ "To provide for the housing needs of the community within a low density residential environment"
    , "To enable other land uses that provide facilities or services to meet the day to day needs of residents" ]
  else if k = "R3" then
    [ "To provide for the housing needs of the community within a medium density residential environment"
    , "To provide a variety of housing types within a medium density residential environment" ]
  else []

/-- `PlanningService._get_qld_permitted_uses`. -/
def get_qld_permitted_uses (zone_code : String) : List String :=
  let k := pyUpper zone_code
  if k = "LDR" then ["Dwelling house", "Home-based business", "Community residence"]
  else if k = "LMR" then ["Dwelling house", "Dual occupancy", "Multiple dwelling", "Rooming accommodation"]
  else if k = "MDR" then ["Multiple dwelling", "Short-term accommodation", "Residential care facility"]
  else if k = "HDR" then ["Multiple dwelling", "Hotel", "Short-term accommodation"]
  else if k = "NC" then ["Shop", "Office", "Food and drink outlet", "Health care service"]
  else if k = "DC" then ["Shop", "Office", "Indoor sport and recreation", "Hotel"]
  else if k = "LI" then ["Low impact industry", "Warehouse", "Service industry"]
  else if k = "MI" then ["Medium impact industry", "Warehouse", "Research and technology"]
  else if k = "OS" then ["Park", "Sport and recreation"]
  else ["Contact council for permitted uses"]

/-- `PlanningService._get_qld_zone_objectives`. -/
def get_qld_zone_objectives (zone_code : String) : List String :=
  let k := pyUpper zone_code
  if k = "LDR" then
    [ "Provide for dwelling houses and community uses"
    , "Maintain the low density residential character"
    , "Ensure development is compatible with surrounding uses" ]
  else if k = "LMR" then
    [ "Provide for a range of dwelling types"
    , "Support increased housing choice and affordability"
    , "Ensure development contributes positively to streetscape" ]
  else []

/-- `PlanningService._land_use_to_zone`: translate a QLUMP land-use class into
an approximate zone code. -/
def land_use_to_zone (land_use : String) : String :=
  let land_use_lower := if land_use ≠ "" then pyLower land_use else ""
  if containsSub land_use_lower "residential" || containsSub land_use_lower "urban" then "LMR"
  else if containsSub land_use_lower "commercial" || containsSub land_use_lower "services" then "NC"
  else if containsSub land_use_lower "industrial" || containsSub land_use_lower "manufacturing" then "LI"
  else if containsSub land_use_lower "rural" || containsSub land_use_lower "agricultural"
       || containsSub land_use_lower "grazing" then "RR"
  else if containsSub land_use_lower "conservation" || containsSub land_use_lower "nature" then "EC"
  else if containsSub land_use_lower "water" then "OS"
  else "SP"

/-- Attribute record of one feature of the NSW principal zoning layer
(the fields `_get_nsw_zoning` reads; a missing attribute is `none`). -/
structure NswZoneAttrs where
  SYM_CODE : Option String := none
  LAY_CLASS : Option String := none
  LGA_NAME : Option String := none
  EPI_NAME : Option String := none
  PURPOSE : Option String := none
deriving DecidableEq, Repr

/-- `PlanningService._get_nsw_zoning` after the query boundary: `features` is
the (possibly empty) list returned by the principal-zoning query. Returns
`none` — not a sentinel — when the query yields no features. -/
def get_nsw_zoning (features : List NswZoneAttrs) : Option ZoningInfo :=
  match features with
  | [] => none
  | attrs :: _ =>
    let zone_code := attrs.SYM_CODE.getD "Unknown"
    let purpose := attrs.PURPOSE.getD ""
    some
      { zone_code := zone_code
        zone_name := attrs.LAY_CLASS.getD "Unknown"
        zone_category := get_zone_category zone_code
        description := if purpose ≠ "" then some purpose else none
        permitted_uses := get_nsw_permitted_uses zone_code
        prohibited_uses := []
        objectives := get_nsw_zone_objectives zone_code
        lga_name := attrs.LGA_NAME
        source := some ("NSW ePlanning - " ++ attrs.EPI_NAME.getD "LEP") }

/-- Attribute record of one feature of the QLD LGA-boundary layer. -/
structure QldLgaAttrs where
  lga : Option String := none
  abbrev_name : Option String := none
  adminareaname : Option String := none
deriving DecidableEq, Repr

/-- Attribute record of one feature of the Brisbane City Council zoning layer. -/
structure BccZoneAttrs where
  ZONE_CODE : Option String := none
  Zone_Code : Option String := none
  ZONE_NAME : Option String := none
  Zone_Name : Option String := none
deriving DecidableEq, Repr

/-- Attribute record of one feature of the QLUMP land-use layer. -/
structure LandUseAttrs where
  primary_lower : Option String := none
  primary_upper : Option String := none
deriving DecidableEq, Repr

/-- The outcomes of the three queries `_get_qld_zoning` can issue, at the I/O
boundary (`primary_lower`/`primary_upper` stand for the `primary_` and
`PRIMARY_` attributes). -/
structure QldZoningEnv where
  lga_features : List QldLgaAttrs := []
  bcc_features : List BccZoneAttrs := []
  land_use_features : List LandUseAttrs := []
deriving DecidableEq, Repr

/-- `PlanningService._get_qld_zoning` after the query boundary: LGA lookup,
Brisbane planning-scheme lookup, QLUMP fallback, and a final sentinel. -/
def get_qld_zoning (env : QldZoningEnv) : Option ZoningInfo :=
  let lga_name : Option String :=
    match env.lga_features with
    | [] => none
    | attrs :: _ => pyOrSO attrs.lga (pyOrSO attrs.adminareaname attrs.abbrev_name)
  let brisbane : Bool :=
    match lga_name with
    | some s => s != "" && containsSub (pyUpper s) "BRISBANE"
    | none => false
  match (if brisbane then env.bcc_features else []) with
  | attrs :: _ =>
    let zone_code := pyOrS attrs.ZONE_CODE (pyOrS attrs.Zone_Code "Unknown")
    let zone_name := pyOrS attrs.ZONE_NAME (pyOrS attrs.Zone_Name "Unknown")
    some
      { zone_code := zone_code
        zone_name := zone_name
        zone_category := get_zone_category zone_code
        description := none
        permitted_uses := get_qld_permitted_uses zone_code
        prohibited_uses := []
        objectives := get_qld_zone_objectives zone_code
        lga_name := some (pyOrS lga_name "Brisbane City Council")
        source := some "Brisbane City Council Planning Scheme" }
  | [] =>
    match env.land_use_features with
    | attrs :: _ =>
      let primary := pyOrS attrs.primary_lower (pyOrS attrs.primary_upper "Unknown")
      let zone_code := land_use_to_zone primary
      some
        { zone_code := zone_code
          zone_name := primary ++ " (Land Use Classification)"
          zone_category := get_zone_category zone_code
          description := some "Zoning based on Queensland Land Use Mapping Program. Check local council planning scheme for specific zoning."
          permitted_uses := get_qld_permitted_uses zone_code
          prohibited_uses := []
          objectives := []
          lga_name := lga_name
          source := some "QLUMP Land Use Classification" }
    | [] =>
      some
        { zone_code := "Unknown"
          zone_name := "Zoning data not available"
          zone_category := ZoneCategory.special_purpose
          description := some ("Please check " ++ pyOrS lga_name "local council" ++ " planning scheme for zoning information.")
          permitted_uses := []
          prohibited_uses := []
          objectives := []
          lga_name := lga_name
          source := some "Queensland Planning Framework" }

/-- `AustralianState.value` (the string value of the enum member). -/
def AustralianState.value : AustralianState → String
  | .NSW => "NSW"
  | .QLD => "QLD"
  | .VIC => "VIC"
  | .SA => "SA"
  | .WA => "WA"
  | .TAS => "TAS"
  | .NT => "NT"
  | .ACT => "ACT"

/-- `PlanningService._get_generic_zoning`: sentinel for the other states. -/
def get_generic_zoning (state : AustralianState) : Option ZoningInfo :=
  some
    { zone_code := "Unknown"
      zone_name := "Zoning data not available"
      zone_category := ZoneCategory.special_purpose
      description := some "Zoning data for this state is not yet available. Please check local council planning portal."
      permitted_uses := []
      prohibited_uses := []
      objectives := []
      lga_name := none
      source := some (state.value ++ " Planning Portal") }

/-- `PlanningService.get_zoning`: jurisdiction dispatch. -/
def get_zoning (state : AustralianState) (nsw_features : List NswZoneAttrs)
    (qld_env : QldZoningEnv) : Option ZoningInfo :=
  match state with
  | .QLD => get_qld_zoning qld_env
  | .NSW => get_nsw_zoning nsw_features
  | _ => get_generic_zoning state

/-- The zoning step of `PlanningService.analyze_property` (lines 1179–1185):
the orchestrator substitutes a fresh sentinel when the resolver returned
`None`. -/
def analyze_property_zoning (state : AustralianState)
    (nsw_features : List NswZoneAttrs) (qld_env : QldZoningEnv) : ZoningInfo :=
  match get_zoning state nsw_features qld_env with
  | some z => z
  | none =>
    { zone_code := "Unknown"
      zone_name := "Zoning not available"
      zone_category := ZoneCategory.special_purpose }

/-- `app.schemas.planning.HazardLevel`. -/
inductive HazardLevel
  | low | medium | high | extreme
deriving DecidableEq, Repr

/-- `app.schemas.planning.HazardType`. -/
inductive HazardType
  | flood | bushfire | coastal_erosion | landslide | storm_tide
  | acid_sulfate | mine_subsidence | contamination
deriving DecidableEq, Repr

/-- `app.schemas.planning.HeritageType`. -/
inductive HeritageType
  | state | local | national | aboriginal | world
deriving DecidableEq, Repr

/-- `app.schemas.planning.HazardOverlay`. -/
structure HazardOverlay where
  hazard_type : HazardType
  category : Option String := none
  level : Option HazardLevel := none
  name : Option String := none
  description : Option String := none
  planning_implications : List String := []
  required_assessments : List String := []
  source : Option String := none
deriving DecidableEq, Repr

/-- `app.schemas.planning.EnvironmentalOverlay`. -/
structure EnvironmentalOverlay where
  overlay_type : String
  category : Option String := none
  name : Option String := none
  description : Option String := none
  planning_implications : List String := []
  required_assessments : List String := []
  source : Option String := none
deriving DecidableEq, Repr

/-- `app.schemas.planning.HeritageItem`. -/
structure HeritageItem where
  heritage_type : HeritageType
  listing_name : String
  listing_number : Option String := none
  significance : Option String := none
  description : Option String := none
  distance_m : Option ℚ := none
  planning_implications : List String := []
  source : Option String := none
deriving DecidableEq, Repr

/-- `app.schemas.planning.OverlaySummary`. -/
structure OverlaySummary where
  hazards : List HazardOverlay := []
  environmental : List EnvironmentalOverlay := []
  heritage : List HeritageItem := []
  total_overlays : ℕ := 0
  has_critical_hazards : Bool := false
  has_heritage_constraints : Bool := false
deriving DecidableEq, Repr

/-- `PlanningService._get_environmental_overlays`: a stub that returns no
records for every state. -/
def get_environmental_overlays (state : AustralianState) : List EnvironmentalOverlay :=
  []

/-- `PlanningService.get_overlays` after the query boundary: `hazards` and
`heritage` are the results of `_get_hazard_overlays` and
`_get_heritage_items` (which build records from external query features);
the environmental list comes from the `_get_environmental_overlays` stub. -/
def get_overlays (state : AustralianState) (hazards : List HazardOverlay)
    (heritage : List HeritageItem) : OverlaySummary :=
  let environmental := get_environmental_overlays state
  let has_critical := hazards.any fun h =>
    decide (h.level = some HazardLevel.high) || decide (h.level = some HazardLevel.extreme)
  { hazards := hazards
    environmental := environmental
    heritage := heritage
    total_overlays := hazards.length + environmental.length + heritage.length
    has_critical_hazards := has_critical
    has_heritage_constraints := decide (0 < heritage.length) }

/-- `app.schemas.planning.BuildingEnvelope`. The `buildable_area_sqm` field is
real-valued because the source computes it with `** 0.5` (square root). -/
structure BuildingEnvelope where
  max_height_m : Option ℚ := none
  max_storeys : Option ℤ := none
  max_gfa_sqm : Option ℚ := none
  max_site_coverage_percent : Option ℚ := none
  setback_front_m : Option ℚ := none
  setback_side_m : Option ℚ := none
  setback_rear_m : Option ℚ := none
  buildable_area_sqm : Option ℝ := none

/-- The setback-extraction loop inside
`PlanningService._calculate_building_envelope`: the last setback of the given
control type wins, and its (possibly absent) `min_value` is stored. -/
def extract_setback (setbacks : List DevelopmentControl) (t : ControlType) : Option ℚ :=
  setbacks.foldl (fun acc s => if s.control_type = t then s.min_value else acc) none

/-- Python `x or d` as a real number, for an optional rational `x`. -/
def pyOrR (a : Option ℚ) (d : ℝ) : ℝ :=
  match a with
  | some v => if v = 0 then d else (v : ℝ)
  | none => d

/-- `PlanningService._calculate_building_envelope`. `(lot/30) ** 0.5` is
modelled as `Real.sqrt (lot/30)`; the two agree on the nonnegative lot areas
the service is used with. -/
noncomputable def calculate_building_envelope (controls : DevelopmentControlsSet)
    (lot_area_sqm : Option ℚ) : BuildingEnvelope :=
  let max_height_m : Option ℚ := controls.height_limit.bind DevelopmentControl.max_value
  let max_storeys : Option ℤ :=
    if controls.height_limit.isSome ∧ truthyQ max_height_m then
      some (pyInt (max_height_m.getD 0 / (16/5)))
    else none
  let max_gfa_sqm : Option ℚ :=
    if controls.fsr.isSome ∧ truthyQ lot_area_sqm then
      some (lot_area_sqm.getD 0 * pyOrQ (controls.fsr.bind DevelopmentControl.max_value) 0)
    else none
  let setback_front_m := extract_setback controls.setbacks .setback_front
  let setback_side_m := extract_setback controls.setbacks .setback_side
  let setback_rear_m := extract_setback controls.setbacks .setback_rear
  let buildable_area_sqm : Option ℝ :=
    if truthyQ lot_area_sqm ∧ truthyQ setback_front_m ∧ truthyQ setback_rear_m then
      let lot : ℝ := ((lot_area_sqm.getD 0 : ℚ) : ℝ)
      let assumed_width : ℝ := Real.sqrt (lot / 30) * 2
      let assumed_depth : ℝ := if 0 < assumed_width then lot / assumed_width else 30
      let buildable_width : ℝ := assumed_width - 2 * pyOrR setback_side_m (9/10)
      let buildable_depth : ℝ :=
        assumed_depth - pyOrR setback_front_m 6 - pyOrR setback_rear_m 6
      if 0 < buildable_width ∧ 0 < buildable_depth then
        some (buildable_width * buildable_depth)
      else none
    else none
  { max_height_m := max_height_m
    max_storeys := max_storeys
    max_gfa_sqm := max_gfa_sqm
    max_site_coverage_percent := controls.site_coverage.bind DevelopmentControl.max_value
    setback_front_m := setback_front_m
    setback_side_m := setback_side_m
    setback_rear_m := setback_rear_m
    buildable_area_sqm := buildable_area_sqm }

/-- `app.schemas.planning.DevelopmentScenario`. -/
structure DevelopmentScenario where
  scenario_name : String
  scenario_type : String
  estimated_dwellings : Option ℤ := none
  estimated_gfa : Option ℚ := none
  feasibility_rating : String
  key_requirements : List String := []
  key_constraints : List String := []
  estimated_approval_pathway : String
deriving DecidableEq, Repr

/-- `PlanningService._generate_development_scenarios` (its `controls` argument
is never read by the source body and is kept for signature fidelity). -/
def generate_development_scenarios (zoning : ZoningInfo)
    (controls : DevelopmentControlsSet)
    (envelope : BuildingEnvelope) (lot_area_sqm : Option ℚ) :
    List DevelopmentScenario :=
  if ¬ truthyQ lot_area_sqm then []
  else
    let lot := lot_area_sqm.getD 0
    let category := zoning.zone_category
    if category = ZoneCategory.residential then
      [ { scenario_name := "Single Dwelling House"
          scenario_type := "residential"
          estimated_dwellings := some 1
          estimated_gfa := some (min 300 (pyOrQ envelope.max_gfa_sqm 300))
          feasibility_rating := "high"
          key_requirements :=
            ["Complies with building codes", "Private certifier or council approval"]
          estimated_approval_pathway := "complying" } ]
      ++ (if 600 ≤ lot then
          [ { scenario_name := "Dual Occupancy"
              scenario_type := "residential"
              estimated_dwellings := some 2
              estimated_gfa := some (min 400 (pyOrQ envelope.max_gfa_sqm 400))
              feasibility_rating := if 800 ≤ lot then "high" else "medium"
              key_requirements :=
                [ "Development Application", "Minimum lot size requirements"
                , "Private open space for each dwelling" ]
              estimated_approval_pathway := "DA" } ]
        else [])
      ++ (if (containsSub zoning.zone_code "R3" || containsSub zoning.zone_code "LMR"
              || containsSub zoning.zone_code "MDR") ∧ 1000 ≤ lot then
          [ { scenario_name := "Townhouse Development"
              scenario_type := "residential"
              estimated_dwellings := some (min (pyInt (lot / 200)) 8)
              estimated_gfa := envelope.max_gfa_sqm
              feasibility_rating := "medium"
              key_requirements :=
                [ "Development Application", "Urban design assessment"
                , "Traffic and parking study" ]
              estimated_approval_pathway := "DA" } ]
        else [])
      ++ (if ((containsSub zoning.zone_code "R4" || containsSub zoning.zone_code "HDR")
              && envelope.max_storeys.any (fun s => s != 0 && decide (4 ≤ s))) = true then
          [ { scenario_name := "Residential Flat Building"
              scenario_type := "residential"
              estimated_dwellings := some (pyInt (pyOrQ envelope.max_gfa_sqm 0 / 80))
              estimated_gfa := envelope.max_gfa_sqm
              feasibility_rating := "medium"
              key_requirements :=
                [ "Development Application", "Design excellence panel review"
                , "Traffic impact assessment", "BASIX certification" ]
              estimated_approval_pathway := "DA" } ]
        else [])
    else if category = ZoneCategory.commercial then
      [ { scenario_name := "Commercial Development"
          scenario_type := "commercial"
          estimated_gfa := envelope.max_gfa_sqm
          feasibility_rating := "medium"
          key_requirements := ["Development Application", "Traffic and parking assessment"]
          estimated_approval_pathway := "DA" } ]
    else if category = ZoneCategory.mixed_use then
      [ { scenario_name := "Mixed Use Development"
          scenario_type := "mixed"
          estimated_dwellings := some (pyInt (pyOrQ envelope.max_gfa_sqm 0 * (7/10) / 80))
          estimated_gfa := envelope.max_gfa_sqm
          feasibility_rating := "medium"
          key_requirements :=
            [ "Development Application", "Design excellence requirements"
            , "Active street frontage" ]
          estimated_approval_pathway := "DA" } ]
    else []

/-!
## Property sales service

`backend/app/services/property_sales_service.py`. Dates are proleptic
Gregorian day numbers counted from 1970-01-01, converted with the standard
civil-calendar algorithms; `datetime.date` arithmetic (`timedelta`,
`replace(day=1)`) acts on these day numbers.
-/

/-- Day number of the civil date `y-m-d` (days since 1970-01-01). -/
def days_from_civil (y m d : ℤ) : ℤ :=
  let y2 := if m ≤ 2 then y - 1 else y
  let era := Int.fdiv y2 400
  let yoe := y2 - era * 400
  let mp := if 2 < m then m - 3 else m + 9
  let doy := Int.fdiv (153 * mp + 2) 5 + d - 1
  let doe := yoe * 365 + Int.fdiv yoe 4 - Int.fdiv yoe 100 + doy
  era * 146097 + doe - 719468

/-- Civil date `(y, m, d)` of a day number. -/
def civil_from_days (z : ℤ) : ℤ × ℤ × ℤ :=
  let z2 := z + 719468
  let era := Int.fdiv z2 146097
  let doe := z2 - era * 146097
  let yoe := Int.fdiv (doe - Int.fdiv doe 1460 + Int.fdiv doe 36524 - Int.fdiv doe 146096) 365
  let y := yoe + era * 400
  let doy := doe - (365 * yoe + Int.fdiv yoe 4 - Int.fdiv yoe 100)
  let mp := Int.fdiv (5 * doy + 2) 153
  let d := doy - Int.fdiv (153 * mp + 2) 5 + 1
  let m := if mp < 10 then mp + 3 else mp - 9
  (if m ≤ 2 then y + 1 else y, m, d)

/-- Python `date.replace(day=1)` on a day number: the month start. -/
def month_start_of (z : ℤ) : ℤ :=
  let c := civil_from_days z
  days_from_civil c.1 c.2.1 1

/-- The `strftime("%Y-%m")` month label of a day number, as a `(year, month)` pair. -/
def month_label (z : ℤ) : ℤ × ℤ :=
  let c := civil_from_days z
  (c.1, c.2.1)

/-- `statistics.median`: middle element of the sorted data, or the mean of the
two middle elements for an even count. (Total with junk value `0` on the
empty list, on which the Python function raises; every caller guards.) -/
def pyMedian (l : List ℚ) : ℚ :=
  let s := l.insertionSort (fun a b => a ≤ b)
  let n := s.length
  if n % 2 = 1 then s.getD (n / 2) 0
  else (s.getD (n / 2 - 1) 0 + s.getD (n / 2) 0) / 2

/-- `statistics.mean` (junk value `0` on the empty list). -/
def pyMean (l : List ℚ) : ℚ := l.sum / l.length

/-- Python `min` over a nonempty list (junk value `0` on the empty list). -/
def pyMinList (l : List ℚ) : ℚ :=
  match l with
  | [] => 0
  | h :: t => t.foldl min h

/-- Python `max` over a nonempty list (junk value `0` on the empty list). -/
def pyMaxList (l : List ℚ) : ℚ :=
  match l with
  | [] => 0
  | h :: t => t.foldl max h

/-- Round half to even, Python's `round` on an exactly represented value. -/
def roundHalfEven (q : ℚ) : ℤ :=
  if Int.fract q = 1/2 then (if 2 ∣ ⌊q⌋ then ⌊q⌋ else ⌊q⌋ + 1) else round q

/-- Python `round(x, 1)`. -/
def pyRound1 (q : ℚ) : ℚ := (roundHalfEven (q * 10) : ℚ) / 10

/-- `app.schemas.property_sales.PropertySale`, restricted to the fields the
statistics and valuation engines read (`sale_price`, `price_per_sqm`,
`contract_date`, `property_type`). -/
structure PropertySale where
  sale_price : ℚ
  contract_date : ℤ
  price_per_sqm : Option ℚ := none
  property_type : String := "other"
deriving DecidableEq, Repr

/-- One entry of `SalesStatistics.monthly_volumes`
(a dict `{"month": "%Y-%m", "count": n}` in the source). -/
structure MonthEntry where
  month : ℤ × ℤ
  count : ℕ
deriving DecidableEq, Repr

/-- `app.schemas.property_sales.SalesStatistics`. `by_property_type` is the
insertion-ordered dict as an association list. -/
structure SalesStatistics where
  total_sales : ℕ
  sales_last_12_months : ℕ
  sales_last_3_months : ℕ
  median_price : Option ℚ := none
  average_price : Option ℚ := none
  min_price : Option ℚ := none
  max_price : Option ℚ := none
  median_price_12_months_ago : Option ℚ := none
  price_change_percent : Option ℚ := none
  median_price_per_sqm : Option ℚ := none
  average_price_per_sqm : Option ℚ := none
  by_property_type : Option (List (String × ℕ)) := none
  monthly_volumes : Option (List MonthEntry) := none
deriving DecidableEq, Repr

/-- The `by_type` dict-building loop inside `_calculate_stats`. -/
def count_by_type (sales : List PropertySale) : List (String × ℕ) :=
  sales.foldl
    (fun m s =>
      if m.any (fun p => p.1 = s.property_type) then
        m.map (fun p => if p.1 = s.property_type then (p.1, p.2 + 1) else p)
      else m ++ [(s.property_type, 1)])
    []

/-- The monthly-volume loop inside `_calculate_stats`: 12 buckets, bucket `i`
starting `30*i` days before the start of the current month and ending at the
month start after adding 32 days, then reversed to oldest-first order. -/
def monthly_volumes_of (today : ℤ) (sales : List PropertySale) : List MonthEntry :=
  ((List.range 12).map fun i =>
    let m_start := month_start_of today - 30 * (i : ℤ)
    let m_end := month_start_of (m_start + 32)
    { month := month_label m_start
      count := (sales.filter fun s =>
        decide (m_start ≤ s.contract_date) && decide (s.contract_date < m_end)).length
      : MonthEntry }).reverse

/-- `PropertySalesService._calculate_stats` (`today` is `date.today()`). -/
def calculate_stats (today : ℤ) (sales : List PropertySale) : SalesStatistics :=
  match sales with
  | [] => { total_sales := 0, sales_last_12_months := 0, sales_last_3_months := 0 }
  | _ :: _ =>
    let year_ago := today - 365
    let three_months_ago := today - 90
    let prices := sales.map PropertySale.sale_price
    let prices_per_sqm :=
      (sales.filter fun s => truthyQ s.price_per_sqm).map fun s => s.price_per_sqm.getD 0
    let last_12_months := sales.filter fun s => decide (year_ago ≤ s.contract_date)
    let last_3_months := sales.filter fun s => decide (three_months_ago ≤ s.contract_date)
    let older_sales := sales.filter fun s => decide (s.contract_date < year_ago)
    let older_prices := older_sales.map PropertySale.sale_price
    let current_median := pyMedian prices
    let old_median : Option ℚ :=
      if older_prices ≠ [] then some (pyMedian older_prices) else none
    let price_change : Option ℚ :=
      if current_median ≠ 0 ∧ truthyQ old_median then
        some ((current_median - old_median.getD 0) / old_median.getD 0 * 100)
      else none
    { total_sales := sales.length
      sales_last_12_months := last_12_months.length
      sales_last_3_months := last_3_months.length
      median_price := some current_median
      average_price := some (pyMean prices)
      min_price := some (pyMinList prices)
      max_price := some (pyMaxList prices)
      median_price_12_months_ago := old_median
      price_change_percent :=
        match price_change with
        | some pc => if pc ≠ 0 then some (pyRound1 pc) else none
        | none => none
      median_price_per_sqm :=
        if prices_per_sqm ≠ [] then some (pyMedian prices_per_sqm) else none
      average_price_per_sqm :=
        if prices_per_sqm ≠ [] then some (pyMean prices_per_sqm) else none
      by_property_type := some (count_by_type sales)
      monthly_volumes := some (monthly_volumes_of today sales) }

/-- `app.schemas.property_sales.ComparableSale`, restricted to the fields the
valuation block of `get_comparable_sales` reads. -/
structure ComparableSale where
  similarity_score : ℚ
  time_adjusted_price : Option ℚ := none
deriving DecidableEq, Repr

/-- The valuation fields of `app.schemas.property_sales.ComparableSalesResponse`. -/
structure ValuationEstimate where
  estimated_value_low : Option ℤ := none
  estimated_value_mid : Option ℤ := none
  estimated_value_high : Option ℤ := none
  confidence : Option ℚ := none
deriving DecidableEq, Repr

/-- The estimate block of `PropertySalesService.get_comparable_sales`
(lines 340–352), applied to the selected (scored, sorted, truncated)
comparables. -/
def estimate_value (comparables : List ComparableSale) : ValuationEstimate :=
  match comparables with
  | [] => {}
  | _ :: _ =>
    let adjusted_prices :=
      (comparables.filter fun c => truthyQ c.time_adjusted_price).map
        fun c => c.time_adjusted_price.getD 0
    match adjusted_prices with
    | [] => {}
    | _ :: _ =>
      let est_mid := pyInt (pyMedian adjusted_prices)
      let est_low := pyInt ((est_mid : ℚ) * (9/10))
      let est_high := pyInt ((est_mid : ℚ) * (11/10))
      let confidence := min ((comparables.length : ℚ) / 10) 1 * (4/5)
      { estimated_value_low := some est_low
        estimated_value_mid := some est_mid
        estimated_value_high := some est_high
        confidence := some confidence }

/-- `math.atan2 y x`: the angle of the point `(x, y)`, in `(-π, π]`. -/
noncomputable def atan2 (y x : ℝ) : ℝ :=
  if 0 < x then Real.arctan (y / x)
  else if x < 0 then
    (if 0 ≤ y then Real.arctan (y / x) + Real.pi else Real.arctan (y / x) - Real.pi)
  else
    (if 0 < y then Real.pi / 2 else if y < 0 then -(Real.pi / 2) else 0)

/-- `math.radians`: degrees to radians. -/
noncomputable def radians (d : ℝ) : ℝ := d * Real.pi / 180

/-- `PropertySalesService._calculate_distance`: the haversine great-circle
distance on a sphere of radius 6,371,000 m. -/
noncomputable def calculate_distance (lat1 lon1 lat2 lon2 : ℝ) : ℝ :=
  let R : ℝ := 6371000
  let lat1_rad := radians lat1
  let lat2_rad := radians lat2
  let delta_lat := radians (lat2 - lat1)
  let delta_lon := radians (lon2 - lon1)
  let a := Real.sin (delta_lat / 2) ^ 2 +
    Real.cos lat1_rad * Real.cos lat2_rad * Real.sin (delta_lon / 2) ^ 2
  let c := 2 * atan2 (Real.sqrt a) (Real.sqrt (1 - a))
  R * c

/-!
## Theorems

One theorem per claim (with witnesses and counterexamples where required),
plus shared helper lemmas.
-/

theorem truthyQ_some_iff (v : ℚ) : truthyQ (some v) = true ↔ v ≠ 0 := by
  simp [truthyQ]

/-- The R2 zoning record used in concrete instances. -/
def zoning_r2 : ZoningInfo :=
  { zone_code := "R2", zone_name := "Low Density Residential"
    zone_category := ZoneCategory.residential }

theorem subdivision_min_lot_r2 : subdivision_min_lot zoning_r2 {} = 450 := by
  rw [subdivision_min_lot]
  norm_num [truthyQ, zoning_r2, show containsSub "R2" "R2" = true from by decide]
  decide

/-- C1 (amended): for a positive lot area and the (positive) minimum lot size
selected by `_calculate_subdivision_potential` — the controls value when
present, else the category/zone-code default (450 for R2/LDR, 4000 for
rural) — the returned record stores that minimum, has
`potential_lots = ⌊lot / min_lot⌋` when that floor is at least 2 and
`potential_lots = 0` otherwise (not the raw floor, which the original claim
asserted), and `can_subdivide` holds iff `⌊lot / min_lot⌋ ≥ 2`. -/
theorem subdivision_potential_amended
    (zoning : ZoningInfo) (controls : DevelopmentControlsSet) (v : ℚ)
    (hv : 0 < v) (hm : 0 < subdivision_min_lot zoning controls) :
    (calculate_subdivision_potential zoning controls (some v)).min_lot_size
        = some (subdivision_min_lot zoning controls) ∧
    (calculate_subdivision_potential zoning controls (some v)).potential_lots
        = (if 2 ≤ ⌊v / subdivision_min_lot zoning controls⌋
           then ⌊v / subdivision_min_lot zoning controls⌋ else 0) ∧
    ((calculate_subdivision_potential zoning controls (some v)).can_subdivide = true
        ↔ 2 ≤ ⌊v / subdivision_min_lot zoning controls⌋) ∧
    (∀ c vm, controls.lot_size = some c → c.min_value = some vm → vm ≠ 0 →
        subdivision_min_lot zoning controls = vm) ∧
    (controls.lot_size = none → zoning.zone_category = ZoneCategory.rural →
        subdivision_min_lot zoning controls = 4000) := by
  have htr : truthyQ (some v) = true := (truthyQ_some_iff v).mpr (ne_of_gt hv)
  have hdiv : 0 ≤ v / subdivision_min_lot zoning controls :=
    le_of_lt (div_pos hv hm)
  have hpy : pyInt (v / subdivision_min_lot zoning controls)
      = ⌊v / subdivision_min_lot zoning controls⌋ := by
    rw [pyInt, if_neg (not_lt.mpr hdiv)]
  refine ⟨?_, ?_, ?_, ?_, ?_⟩
  · rw [calculate_subdivision_potential]
    rw [if_neg (by simp [htr])]
    simp only [Option.getD_some, hpy]
    split <;> rfl
  · rw [calculate_subdivision_potential]
    rw [if_neg (by simp [htr])]
    simp only [Option.getD_some, hpy]
    split <;> rfl
  · rw [calculate_subdivision_potential]
    rw [if_neg (by simp [htr])]
    simp only [Option.getD_some, hpy]
    split <;> rename_i h
    · simp [h]
    · simp [h]
  · intro c vm hc hvm hvm0
    rw [subdivision_min_lot, if_pos]
    · simp [hc, hvm]
    · simp [hc, hvm, truthyQ, hvm0]
  · intro hnone hrural
    rw [subdivision_min_lot]
    rw [if_neg (by simp [hnone, truthyQ])]
    rw [if_pos hrural]

/-- C1 counterexample: with the R2 default minimum lot size of 450, a lot of
800 sqm yields `potential_lots = 0`, not `⌊800 / 450⌋ = 1` as the claim
states (the source only assigns `potential_lots` when the floor reaches 2). -/
theorem subdivision_counterexample :
    (calculate_subdivision_potential zoning_r2 {} (some 800)).potential_lots = 0 ∧
    (calculate_subdivision_potential zoning_r2 {} (some 800)).min_lot_size = some 450 ∧
    ⌊(800 : ℚ) / 450⌋ = 1 := by
  have h := subdivision_potential_amended zoning_r2 {} 800 (by norm_num)
    (by rw [subdivision_min_lot_r2]; norm_num)
  rw [subdivision_min_lot_r2] at h
  refine ⟨?_, ?_, by norm_num⟩
  · rw [h.2.1]; norm_num
  · exact h.1

/-- C1 witness: the amended theorem applied at lot area 1000 on R2 with no
resolved lot-size control: 1000/450 floors to 2, so subdivision is possible. -/
theorem subdivision_potential_amended_witness :
    (0:ℚ) < 1000 ∧
    ((calculate_subdivision_potential zoning_r2 {} (some 1000)).can_subdivide = true
      ↔ 2 ≤ ⌊(1000:ℚ) / subdivision_min_lot zoning_r2 {}⌋) ∧
    (calculate_subdivision_potential zoning_r2 {} (some 1000)).can_subdivide = true := by
  refine ⟨by norm_num, (subdivision_potential_amended zoning_r2 {} 1000 (by norm_num)
    (by rw [subdivision_min_lot_r2]; norm_num)).2.2.1, ?_⟩
  rw [(subdivision_potential_amended zoning_r2 {} 1000 (by norm_num)
    (by rw [subdivision_min_lot_r2]; norm_num)).2.2.1, subdivision_min_lot_r2]
  norm_num


theorem postprocess_spec (controls : DevelopmentControlsSet) (lot : Option ℚ)
    (hg : controls.estimated_gfa = none)
    (hs : controls.estimated_storeys = none)
    (hf : ∀ c, controls.fsr = some c → ∃ m, c.max_value = some m ∧ 0 < m)
    (hh : ∀ c, controls.height_limit = some c → ∃ m, c.max_value = some m ∧ 0 < m) :
    ((postprocess_controls controls lot).estimated_gfa.isSome = true
        ↔ (controls.fsr.isSome = true ∧ truthyQ lot = true)) ∧
    (∀ v c m, lot = some v → v ≠ 0 → controls.fsr = some c → c.max_value = some m →
        (postprocess_controls controls lot).estimated_gfa = some (v * m)) ∧
    ((postprocess_controls controls lot).estimated_storeys.isSome = true
        ↔ controls.height_limit.isSome = true) ∧
    (∀ c m, controls.height_limit = some c → c.max_value = some m →
        (postprocess_controls controls lot).estimated_storeys = some ⌊m / (16/5)⌋) := by
  have hA : (postprocess_controls controls lot).estimated_gfa
      = if truthyQ lot = true ∧ controls.fsr.isSome = true
        then some (lot.getD 0 * pyOrQ (controls.fsr.bind DevelopmentControl.max_value) (1/2))
        else none := by
    simp only [postprocess_controls]
    split_ifs with h1 h2 h3 <;> simp_all
  have hB : (postprocess_controls controls lot).estimated_storeys
      = if truthyQ (controls.height_limit.bind DevelopmentControl.max_value) = true
        then some (pyInt ((controls.height_limit.bind DevelopmentControl.max_value).getD 0 / (16/5)))
        else none := by
    simp only [postprocess_controls]
    split_ifs with h1 h2 h3 <;> simp_all
  refine ⟨?_, ?_, ?_, ?_⟩
  · rw [hA]
    split_ifs with h
    · simp [h.1, h.2]
    · simp only [Option.isSome_none, Bool.false_eq_true, false_iff]
      intro hcontra
      exact h ⟨hcontra.2, hcontra.1⟩
  · intro v c m hl hv hc hm
    have hm0 : 0 < m := by
      obtain ⟨m2, hm2, hp⟩ := hf c hc
      rw [hm] at hm2
      injection hm2 with e
      rw [e]; exact hp
    rw [hA, if_pos ⟨by simp [truthyQ, hl, hv], by simp [hc]⟩]
    simp [hl, hc, hm, pyOrQ, ne_of_gt hm0]
  · rw [hB]
    split_ifs with h
    · cases hhl : controls.height_limit with
      | none => rw [hhl] at h; simp [truthyQ] at h
      | some c => simp [hhl]
    · cases hhl : controls.height_limit with
      | none => simp
      | some c =>
        obtain ⟨m, hm2, hp⟩ := hh c hhl
        rw [hhl] at h
        simp [hm2, truthyQ, ne_of_gt hp] at h
  · intro c m hc hm
    have hm0 : 0 < m := by
      obtain ⟨m2, hm2, hp⟩ := hh c hc
      rw [hm] at hm2
      injection hm2 with e
      rw [e]; exact hp
    rw [hB, if_pos (by simp [hc, hm, truthyQ, ne_of_gt hm0])]
    have hd : ¬ (m / (16/5) : ℚ) < 0 :=
      not_lt.mpr (le_of_lt (div_pos hm0 (by norm_num)))
    simp [hc, hm, pyInt, hd]



theorem postprocess_preserves (controls : DevelopmentControlsSet) (lot : Option ℚ) :
    (postprocess_controls controls lot).fsr = controls.fsr ∧
    (postprocess_controls controls lot).height_limit = controls.height_limit := by
  simp only [postprocess_controls]
  split_ifs <;> simp_all

theorem default_controls_fsr_pos (zone_code : String) :
    ∀ c, (get_default_controls zone_code).fsr = some c →
      ∃ m, c.max_value = some m ∧ 0 < m := by
  intro c hc
  simp only [get_default_controls, Option.map_eq_some'] at hc
  obtain ⟨r, hr, rfl⟩ := hc
  refine ⟨r, rfl, ?_⟩
  cases hcat : get_zone_category zone_code <;>
    rw [hcat] at hr <;> simp [fsr_defaults] at hr <;> rw [← hr] <;> norm_num

theorem default_controls_height_pos (zone_code : String) :
    ∀ c, (get_default_controls zone_code).height_limit = some c →
      ∃ m, c.max_value = some m ∧ 0 < m := by
  intro c hc
  simp only [get_default_controls, Option.map_eq_some'] at hc
  obtain ⟨r, hr, rfl⟩ := hc
  refine ⟨r, rfl, ?_⟩
  cases hcat : get_zone_category zone_code <;>
    rw [hcat] at hr <;> simp [height_defaults] at hr <;> rw [← hr] <;> norm_num

theorem nsw_controls_fsr_pos (env : NswControlsEnv) (zone_code : String)
    (hf : ∀ v, env.fsr_parsed = some v → 0 < v) :
    ∀ c, (get_nsw_controls env zone_code).fsr = some c →
      ∃ m, c.max_value = some m ∧ 0 < m := by
  intro c hc
  simp only [get_nsw_controls, Option.map_eq_some'] at hc
  obtain ⟨r, hr, rfl⟩ := hc
  exact ⟨r, rfl, hf r hr⟩

theorem nsw_controls_height_pos (env : NswControlsEnv) (zone_code : String)
    (hh : ∀ v, env.height_parsed = some v → 0 < v) :
    ∀ c, (get_nsw_controls env zone_code).height_limit = some c →
      ∃ m, c.max_value = some m ∧ 0 < m := by
  intro c hc
  simp only [get_nsw_controls, Option.map_eq_some'] at hc
  obtain ⟨r, hr, rfl⟩ := hc
  exact ⟨r, rfl, hh r hr⟩

theorem postprocess_full (b : DevelopmentControlsSet) (lot : Option ℚ)
    (hg : b.estimated_gfa = none) (hs : b.estimated_storeys = none)
    (hbf : ∀ c, b.fsr = some c → ∃ m, c.max_value = some m ∧ 0 < m)
    (hbh : ∀ c, b.height_limit = some c → ∃ m, c.max_value = some m ∧ 0 < m) :
    ((postprocess_controls b lot).estimated_gfa.isSome = true
        ↔ ((postprocess_controls b lot).fsr.isSome = true ∧ truthyQ lot = true)) ∧
    (∀ v c m, lot = some v → v ≠ 0 →
        (postprocess_controls b lot).fsr = some c → c.max_value = some m →
        (postprocess_controls b lot).estimated_gfa = some (v * m)) ∧
    ((postprocess_controls b lot).estimated_storeys.isSome = true
        ↔ (postprocess_controls b lot).height_limit.isSome = true) ∧
    (∀ c m, (postprocess_controls b lot).height_limit = some c → c.max_value = some m →
        (postprocess_controls b lot).estimated_storeys = some ⌊m / (16/5)⌋) := by
  have hp := postprocess_preserves b lot
  have hspec := postprocess_spec b lot hg hs hbf hbh
  exact ⟨by rw [hp.1]; exact hspec.1,
         fun v c m hl hv hc hm => hspec.2.1 v c m hl hv (by rw [← hp.1]; exact hc) hm,
         by rw [hp.2]; exact hspec.2.2.1,
         fun c m hc hm => hspec.2.2.2 c m (by rw [← hp.2]; exact hc) hm⟩

/-- C2 (amended): for every resolved `DevelopmentControlsSet` (the resolver
output for any state, given well-formed parsed layer values, whose FSR and
height controls always carry a positive `max_value`), `estimated_gfa` is set
exactly when an FSR control is known and a non-zero (rather than positive —
the source tests Python truthiness, so a negative lot area also sets it) lot
area is known, and then equals `lot_area * fsr_max`; `estimated_storeys` is
set exactly when a height limit is known, and then equals
`⌊height_max / 3.2⌋`. -/
theorem controls_postprocessing_amended
    (state : AustralianState) (env : NswControlsEnv) (zone_code : String) (lot : Option ℚ)
    (hf : ∀ v, env.fsr_parsed = some v → 0 < v)
    (hh : ∀ v, env.height_parsed = some v → 0 < v) :
    ((get_development_controls state env zone_code lot).estimated_gfa.isSome = true
        ↔ ((get_development_controls state env zone_code lot).fsr.isSome = true
            ∧ truthyQ lot = true)) ∧
    (∀ v c m, lot = some v → v ≠ 0 →
        (get_development_controls state env zone_code lot).fsr = some c →
        c.max_value = some m →
        (get_development_controls state env zone_code lot).estimated_gfa = some (v * m)) ∧
    ((get_development_controls state env zone_code lot).estimated_storeys.isSome = true
        ↔ (get_development_controls state env zone_code lot).height_limit.isSome = true) ∧
    (∀ c m, (get_development_controls state env zone_code lot).height_limit = some c →
        c.max_value = some m →
        (get_development_controls state env zone_code lot).estimated_storeys
          = some ⌊m / (16/5)⌋) := by
  cases state with
  | NSW =>
      simp only [get_development_controls]
      exact postprocess_full (get_nsw_controls env zone_code) lot rfl rfl
        (nsw_controls_fsr_pos env zone_code hf) (nsw_controls_height_pos env zone_code hh)
  | QLD =>
      simp only [get_development_controls]
      exact postprocess_full (get_default_controls zone_code) lot rfl rfl
        (default_controls_fsr_pos zone_code) (default_controls_height_pos zone_code)
  | VIC =>
      simp only [get_development_controls]
      exact postprocess_full (get_default_controls zone_code) lot rfl rfl
        (default_controls_fsr_pos zone_code) (default_controls_height_pos zone_code)
  | SA =>
      simp only [get_development_controls]
      exact postprocess_full (get_default_controls zone_code) lot rfl rfl
        (default_controls_fsr_pos zone_code) (default_controls_height_pos zone_code)
  | WA =>
      simp only [get_development_controls]
      exact postprocess_full (get_default_controls zone_code) lot rfl rfl
        (default_controls_fsr_pos zone_code) (default_controls_height_pos zone_code)
  | TAS =>
      simp only [get_development_controls]
      exact postprocess_full (get_default_controls zone_code) lot rfl rfl
        (default_controls_fsr_pos zone_code) (default_controls_height_pos zone_code)
  | NT =>
      simp only [get_development_controls]
      exact postprocess_full (get_default_controls zone_code) lot rfl rfl
        (default_controls_fsr_pos zone_code) (default_controls_height_pos zone_code)
  | ACT =>
      simp only [get_development_controls]
      exact postprocess_full (get_default_controls zone_code) lot rfl rfl
        (default_controls_fsr_pos zone_code) (default_controls_height_pos zone_code)



/-- A parsed NSW controls environment used in concrete instances. -/
def env_nsw_example : NswControlsEnv := { height_parsed := some 9, fsr_parsed := some (1/2) }

/-- The FSR control `_get_nsw_controls` builds from a parsed FSR of 0.5. -/
def fsr_control_half : DevelopmentControl :=
  { control_type := ControlType.fsr
    name := "Floor Space Ratio"
    max_value := some (1/2)
    unit := "ratio" }

/-- The height control `_get_nsw_controls` builds from a parsed height of 9. -/
def height_control_nine : DevelopmentControl :=
  { control_type := ControlType.height
    name := "Maximum Building Height"
    max_value := some 9
    unit := "m" }

/-- C2 counterexample: `estimated_gfa` is not absent for a non-positive lot
area — a reachable lot area of −600 with FSR 0.5 sets it to −300, violating
the claimed "absent otherwise". -/
theorem controls_gfa_counterexample :
    (get_development_controls AustralianState.NSW { fsr_parsed := some (1/2) } "SP1"
        (some (-600))).estimated_gfa = some (-300) ∧
    ¬ ((0:ℚ) < -600) := by
  constructor
  · simp only [get_development_controls, get_nsw_controls, postprocess_controls]
    norm_num [truthyQ, pyOrQ]
  · norm_num

/-- C2 witness: the amended theorem at NSW with parsed height 9 and FSR 0.5
on a 600 sqm lot: `estimated_gfa = 300` and `estimated_storeys = 2`. -/
theorem controls_postprocessing_amended_witness :
    (get_development_controls AustralianState.NSW env_nsw_example "SP1"
        (some 600)).estimated_gfa = some 300 ∧
    (get_development_controls AustralianState.NSW env_nsw_example "SP1"
        (some 600)).estimated_storeys = some 2 := by
  have h := controls_postprocessing_amended AustralianState.NSW env_nsw_example "SP1" (some 600)
    (by intro v hv; simp only [env_nsw_example] at hv; injection hv with e; rw [← e]; norm_num)
    (by intro v hv; simp only [env_nsw_example] at hv; injection hv with e; rw [← e]; norm_num)
  have hfsr : (get_development_controls AustralianState.NSW env_nsw_example "SP1"
      (some 600)).fsr = some fsr_control_half := by
    simp only [get_development_controls]
    rw [(postprocess_preserves _ _).1]
    simp [get_nsw_controls, env_nsw_example, fsr_control_half]
  have hhl : (get_development_controls AustralianState.NSW env_nsw_example "SP1"
      (some 600)).height_limit = some height_control_nine := by
    simp only [get_development_controls]
    rw [(postprocess_preserves _ _).2]
    simp [get_nsw_controls, env_nsw_example, height_control_nine]
  constructor
  · have hv := h.2.1 600 _ (1/2) rfl (by norm_num) hfsr rfl
    rw [hv]; norm_num
  · have hv := h.2.2.2 _ 9 hhl rfl
    rw [hv]
    norm_num [show ((9:ℚ) / (16/5)) = 45/16 by norm_num]




theorem postprocess_preserves_lot (controls : DevelopmentControlsSet) (lot : Option ℚ) :
    (postprocess_controls controls lot).lot_size = controls.lot_size ∧
    (postprocess_controls controls lot).setbacks = controls.setbacks := by
  simp only [postprocess_controls]
  split_ifs <;> simp_all

/-- The resolved development controls of the end-to-end residential instance:
zone R2 through the category-default path (height 9 m, FSR 0.5), lot 650. -/
def controls_r2_650 : DevelopmentControlsSet :=
  get_development_controls AustralianState.QLD {} "R2" (some 650)

/-- The building envelope of the end-to-end residential instance. -/
noncomputable def envelope_r2_650 : BuildingEnvelope :=
  calculate_building_envelope controls_r2_650 (some 650)

/-- The development scenarios of the end-to-end residential instance. -/
noncomputable def scenarios_r2_650 : List DevelopmentScenario :=
  generate_development_scenarios zoning_r2 controls_r2_650 envelope_r2_650 (some 650)

/-- The default residential FSR control (FSR 0.5). -/
def fsr_default_half : DevelopmentControl :=
  { control_type := ControlType.fsr
    name := "Floor Space Ratio (Default)"
    max_value := some (1/2)
    unit := "ratio"
    notes := some "Default value - check local planning controls" }

/-- The default residential height control (9 m). -/
def height_default_nine : DevelopmentControl :=
  { control_type := ControlType.height
    name := "Maximum Building Height (Default)"
    max_value := some 9
    unit := "m"
    notes := some "Default value - check local planning controls" }

theorem zone_category_r2 : get_zone_category "R2" = ZoneCategory.residential := by decide

theorem controls_r2_650_eval :
    controls_r2_650.estimated_gfa = some 325 ∧
    controls_r2_650.estimated_storeys = some 2 ∧
    controls_r2_650.fsr = some fsr_default_half ∧
    controls_r2_650.height_limit = some height_default_nine ∧
    controls_r2_650.lot_size = none := by
  have hd : get_default_controls "R2" =
      { height_limit := some height_default_nine
        fsr := some fsr_default_half
        setbacks := get_default_setbacks "R2" } := by
    rw [get_default_controls, zone_category_r2]
    rfl
  simp only [controls_r2_650, get_development_controls, get_qld_controls, hd]
  rw [postprocess_controls]
  norm_num [truthyQ, pyOrQ, pyInt, height_default_nine, fsr_default_half]



theorem envelope_r2_650_eval :
    envelope_r2_650.max_gfa_sqm = some 325 ∧
    envelope_r2_650.max_storeys = some 2 := by
  simp only [envelope_r2_650, calculate_building_envelope, controls_r2_650_eval.2.2.1,
    controls_r2_650_eval.2.2.2.1]
  norm_num [truthyQ, pyOrQ, pyInt, height_default_nine, fsr_default_half]

theorem scenarios_r2_650_names :
    scenarios_r2_650.map (fun s => (s.scenario_name, s.feasibility_rating))
      = [("Single Dwelling House", "high"), ("Dual Occupancy", "medium")] ∧
    scenarios_r2_650.map DevelopmentScenario.scenario_name
      = ["Single Dwelling House", "Dual Occupancy"] := by
  have h1 : (containsSub "R2" "R3" || containsSub "R2" "LMR" || containsSub "R2" "MDR") = false := by
    decide
  have h2 : (containsSub "R2" "R4" || containsSub "R2" "HDR") = false := by decide
  constructor <;>
    (simp only [scenarios_r2_650, generate_development_scenarios, zoning_r2]
     norm_num [truthyQ, h1, h2])

theorem subdivision_r2_650 :
    (calculate_subdivision_potential zoning_r2 controls_r2_650 (some 650)).can_subdivide
      = false := by
  have hml : subdivision_min_lot zoning_r2 controls_r2_650 = 450 := by
    rw [subdivision_min_lot, controls_r2_650_eval.2.2.2.2]
    norm_num [truthyQ, zoning_r2, show containsSub "R2" "R2" = true from by decide]
    decide
  have h := subdivision_potential_amended zoning_r2 controls_r2_650 650 (by norm_num)
    (by rw [hml]; norm_num)
  rw [hml] at h
  apply Bool.eq_false_iff.mpr
  intro hc
  have hfl : ¬ (2 ≤ ⌊(650:ℚ)/450⌋) := by norm_num
  exact hfl (h.2.2.1.mp hc)



/-- C3 (amended): for the residential end-to-end instance with zone code R2,
lot area 650 sqm, height limit 9 m and FSR 0.5, the resolved controls carry
`estimated_gfa = 325` and `estimated_storeys = 2`, the generated scenarios are
exactly "Single Dwelling House" (feasibility high) followed by
"Dual Occupancy" (feasibility medium) — the first scenario is named
"Single Dwelling House", not "Single Dwelling Home" as the original claim
stated — and subdivision is not possible (650/450 floors to 1). -/
theorem r2_end_to_end_amended :
    controls_r2_650.estimated_gfa = some 325 ∧
    controls_r2_650.estimated_storeys = some 2 ∧
    scenarios_r2_650.map (fun s => (s.scenario_name, s.feasibility_rating))
      = [("Single Dwelling House", "high"), ("Dual Occupancy", "medium")] ∧
    (calculate_subdivision_potential zoning_r2 controls_r2_650 (some 650)).can_subdivide
      = false :=
  ⟨controls_r2_650_eval.1, controls_r2_650_eval.2.1, scenarios_r2_650_names.1,
   subdivision_r2_650⟩

/-- C3 counterexample: the scenario list of the end-to-end instance does not
match the claimed names — the source emits "Single Dwelling House", not
"Single Dwelling Home". -/
theorem r2_end_to_end_counterexample :
    scenarios_r2_650.map DevelopmentScenario.scenario_name
      = ["Single Dwelling House", "Dual Occupancy"] ∧
    ¬ scenarios_r2_650.map DevelopmentScenario.scenario_name
      = ["Single Dwelling Home", "Dual Occupancy"] := by
  refine ⟨scenarios_r2_650_names.2, ?_⟩
  rw [scenarios_r2_650_names.2]
  decide




theorem pyMedian_pos (l : List ℚ) (hne : l ≠ []) (hpos : ∀ x ∈ l, 0 < x) :
    0 < pyMedian l := by
  have hperm : (l.insertionSort (fun a b => a ≤ b)).Perm l := List.perm_insertionSort _ l
  have hmem : ∀ x ∈ l.insertionSort (fun a b => a ≤ b), 0 < x := fun x hx =>
    hpos x (hperm.mem_iff.mp hx)
  have hlen : (l.insertionSort (fun a b => a ≤ b)).length = l.length := hperm.length_eq
  have hlpos : 0 < l.length := List.length_pos.mpr hne
  have hget : ∀ i, i < (l.insertionSort (fun a b => a ≤ b)).length →
      0 < (l.insertionSort (fun a b => a ≤ b)).getD i 0 := by
    intro i hi
    have : (l.insertionSort (fun a b => a ≤ b)).getD i 0
        = (l.insertionSort (fun a b => a ≤ b))[i] := by
      rw [List.getD_eq_getElem?_getD, List.getElem?_eq_getElem hi]
      rfl
    rw [this]
    exact hmem _ (List.getElem_mem hi)
  rw [pyMedian]
  split
  · exact hget _ (by rw [hlen]; exact Nat.div_lt_self hlpos (by norm_num))
  · have ha := hget ((l.insertionSort (fun a b => a ≤ b)).length / 2 - 1)
      (by omega)
    have hb := hget ((l.insertionSort (fun a b => a ≤ b)).length / 2)
      (by rw [hlen]; exact Nat.div_lt_self hlpos (by norm_num))
    positivity



/-- C4 (amended): when the selected comparable set is non-empty (and, as the
scoring pipeline guarantees for positive sale prices, every comparable
carries a positive time-adjusted price), the estimate has
`mid = ⌊median of time-adjusted prices⌋`, `low = ⌊0.9 × mid⌋` and
`high = ⌊1.1 × mid⌋` (the source truncates each value with `int()`, so the
claimed exact equalities hold only up to truncation), hence
`low ≤ mid ≤ high`; `confidence = min(count/10, 1) × 0.8`, which is positive
and never exceeds 0.8; with an empty comparable set, low, mid, high and
confidence are all unset. -/
theorem valuation_amended (comps : List ComparableSale)
    (hpos : ∀ c ∈ comps, ∃ p, c.time_adjusted_price = some p ∧ 0 < p) :
    (comps = [] →
      (estimate_value comps).estimated_value_low = none ∧
      (estimate_value comps).estimated_value_mid = none ∧
      (estimate_value comps).estimated_value_high = none ∧
      (estimate_value comps).confidence = none) ∧
    (comps ≠ [] →
      (estimate_value comps).estimated_value_mid
        = some ⌊pyMedian (comps.map (fun c => c.time_adjusted_price.getD 0))⌋ ∧
      (∀ mid : ℤ, (estimate_value comps).estimated_value_mid = some mid →
        (estimate_value comps).estimated_value_low = some ⌊(mid : ℚ) * (9/10)⌋ ∧
        (estimate_value comps).estimated_value_high = some ⌊(mid : ℚ) * (11/10)⌋ ∧
        ⌊(mid : ℚ) * (9/10)⌋ ≤ mid ∧ mid ≤ ⌊(mid : ℚ) * (11/10)⌋) ∧
      (estimate_value comps).confidence = some (min ((comps.length : ℚ) / 10) 1 * (4/5)) ∧
      (∀ conf : ℚ, (estimate_value comps).confidence = some conf →
        0 < conf ∧ conf ≤ 4/5)) := by
  constructor
  · intro h
    subst h
    exact ⟨rfl, rfl, rfl, rfl⟩
  · intro hne
    obtain ⟨a, t, rfl⟩ := List.exists_cons_of_ne_nil hne
    have hfilt : (a :: t).filter (fun c => truthyQ c.time_adjusted_price) = a :: t := by
      apply List.filter_eq_self.mpr
      intro c hc
      obtain ⟨p, hp, hp0⟩ := hpos c hc
      simp [truthyQ, hp, ne_of_gt hp0]
    have hmappos : ∀ x ∈ (a :: t).map (fun c => c.time_adjusted_price.getD 0), 0 < x := by
      intro x hx
      obtain ⟨c, hc, rfl⟩ := List.mem_map.mp hx
      obtain ⟨p, hp, hp0⟩ := hpos c hc
      rw [hp]
      exact hp0
    have hmed : 0 < pyMedian ((a :: t).map (fun c => c.time_adjusted_price.getD 0)) :=
      pyMedian_pos _ (by simp) hmappos
    have hmid : pyInt (pyMedian ((a :: t).map (fun c => c.time_adjusted_price.getD 0)))
        = ⌊pyMedian ((a :: t).map (fun c => c.time_adjusted_price.getD 0))⌋ := by
      rw [pyInt, if_neg (not_lt.mpr (le_of_lt hmed))]
    have hkey : estimate_value (a :: t) =
        { estimated_value_low :=
            some (pyInt ((pyInt (pyMedian ((a :: t).map (fun c => c.time_adjusted_price.getD 0))) : ℚ) * (9/10)))
          estimated_value_mid :=
            some (pyInt (pyMedian ((a :: t).map (fun c => c.time_adjusted_price.getD 0))))
          estimated_value_high :=
            some (pyInt ((pyInt (pyMedian ((a :: t).map (fun c => c.time_adjusted_price.getD 0))) : ℚ) * (11/10)))
          confidence := some (min (((a :: t).length : ℚ) / 10) 1 * (4/5)) } := by
      rw [estimate_value]
      rw [hfilt]
      rfl
    rw [hkey]
    dsimp only
    have hmidfl : (0:ℤ) ≤ ⌊pyMedian ((a :: t).map (fun c => c.time_adjusted_price.getD 0))⌋ :=
      Int.le_floor.mpr (by exact_mod_cast le_of_lt hmed)
    refine ⟨by rw [hmid], ?_, rfl, ?_⟩
    · intro mid hmideq
      simp only [Option.some_inj] at hmideq
      rw [hmid] at hmideq
      subst hmideq
      have h9 : (0:ℚ) ≤ (⌊pyMedian ((a :: t).map (fun c => c.time_adjusted_price.getD 0))⌋ : ℚ) * (9/10) := by
        apply mul_nonneg _ (by norm_num)
        exact_mod_cast hmidfl
      have h11 : (0:ℚ) ≤ (⌊pyMedian ((a :: t).map (fun c => c.time_adjusted_price.getD 0))⌋ : ℚ) * (11/10) := by
        apply mul_nonneg _ (by norm_num)
        exact_mod_cast hmidfl
      refine ⟨by rw [hmid, pyInt, if_neg (not_lt.mpr h9)],
              by rw [hmid, pyInt, if_neg (not_lt.mpr h11)], ?_, ?_⟩
      · calc ⌊(⌊pyMedian ((a :: t).map (fun c => c.time_adjusted_price.getD 0))⌋ : ℚ) * (9/10)⌋
            ≤ ⌊(⌊pyMedian ((a :: t).map (fun c => c.time_adjusted_price.getD 0))⌋ : ℚ)⌋ := by
              apply Int.floor_le_floor
              nlinarith [hmidfl]
          _ = ⌊pyMedian ((a :: t).map (fun c => c.time_adjusted_price.getD 0))⌋ := Int.floor_intCast _
      · apply Int.le_floor.mpr
        nlinarith [hmidfl]
    · intro conf hconf
      simp only [Option.some_inj] at hconf
      subst hconf
      constructor
      · apply mul_pos _ (by norm_num)
        apply lt_min _ one_pos
        have hl : (0:ℚ) < ((a :: t).length : ℚ) := by
          exact_mod_cast Nat.succ_pos t.length
        exact div_pos hl (by norm_num)
      · have := min_le_right (((a :: t).length : ℚ) / 10) 1
        nlinarith [this]



/-- First comparable of the valuation counterexample. -/
def comp_a : ComparableSale := { similarity_score := 1, time_adjusted_price := some 100001 }

/-- Second comparable of the valuation counterexample. -/
def comp_b : ComparableSale := { similarity_score := 1, time_adjusted_price := some 100002 }

/-- C4 counterexample: two comparables with time-adjusted prices 100001 and
100002 give a median of 100001.5 but `mid = 100001` (truncated), and
`low = 90000 ≠ 0.9 × mid = 90000.9` — the claim's exact equalities fail. -/
theorem valuation_counterexample :
    (estimate_value [comp_a, comp_b]).estimated_value_mid = some 100001 ∧
    pyMedian [(100001 : ℚ), 100002] = 200003/2 ∧
    ¬ ((100001 : ℚ) = 200003/2) ∧
    (estimate_value [comp_a, comp_b]).estimated_value_low = some 90000 ∧
    ¬ ((90000 : ℚ) = (9/10) * 100001) := by
  have hm : pyMedian [(100001 : ℚ), 100002] = 200003/2 := by
    norm_num [pyMedian, List.insertionSort, List.orderedInsert]
  have hest := valuation_amended [comp_a, comp_b] (by
    intro c hc
    simp only [List.mem_cons, List.not_mem_nil, or_false] at hc
    rcases hc with rfl | rfl
    · exact ⟨100001, by simp [comp_a], by norm_num⟩
    · exact ⟨100002, by simp [comp_b], by norm_num⟩)
  have hmap : ([comp_a, comp_b].map (fun c => c.time_adjusted_price.getD 0))
      = [(100001 : ℚ), 100002] := by
    simp [comp_a, comp_b]
  have h2 := hest.2 (by simp)
  rw [hmap, hm] at h2
  have hmid : (estimate_value [comp_a, comp_b]).estimated_value_mid = some 100001 := by
    rw [h2.1]
    norm_num
  refine ⟨hmid, hm, by norm_num, ?_, by norm_num⟩
  have hlow := (h2.2.1 100001 hmid).1
  rw [hlow]
  norm_num

/-- C4 witness: the amended theorem at a single comparable with
time-adjusted price 100001: the estimate is produced, and
`confidence = min(1/10, 1) × 0.8 = 0.08`. -/
theorem valuation_amended_witness :
    ([comp_a] ≠ []) ∧
    (estimate_value [comp_a]).estimated_value_mid = some 100001 ∧
    (estimate_value [comp_a]).confidence = some (2/25) := by
  have hest := valuation_amended [comp_a] (by
    intro c hc
    simp only [List.mem_cons, List.not_mem_nil, or_false] at hc
    subst hc
    exact ⟨100001, by simp [comp_a], by norm_num⟩)
  have h2 := hest.2 (by simp)
  refine ⟨by simp, ?_, ?_⟩
  · rw [h2.1]
    norm_num [comp_a, pyMedian, List.insertionSort, List.orderedInsert]
  · rw [h2.2.2.1]
    norm_num




/-- C5 (amended): for every sales corpus, `price_change_percent` is the
rounded-to-one-decimal value of
`(median over ALL sales − median over the older-than-12-months subset) /
(median over the older subset) × 100` — the numerator uses the median of the
whole corpus, not of the last-12-months subset as the original claim states —
and it is unset when the corpus is empty, when the older subset is empty,
when either median is zero, or when the computed change is exactly zero. -/
theorem price_trend_amended (today : ℤ) (sales : List PropertySale) :
    (calculate_stats today sales).price_change_percent =
      match sales with
      | [] => none
      | _ :: _ =>
        if pyMedian (sales.map PropertySale.sale_price) ≠ 0 ∧
           ((sales.filter fun s => decide (s.contract_date < today - 365)) ≠ [] ∧
            pyMedian ((sales.filter fun s => decide (s.contract_date < today - 365)).map
              PropertySale.sale_price) ≠ 0) ∧
           (pyMedian (sales.map PropertySale.sale_price) -
              pyMedian ((sales.filter fun s => decide (s.contract_date < today - 365)).map
                PropertySale.sale_price)) /
             pyMedian ((sales.filter fun s => decide (s.contract_date < today - 365)).map
               PropertySale.sale_price) * 100 ≠ 0
        then some (pyRound1 ((pyMedian (sales.map PropertySale.sale_price) -
              pyMedian ((sales.filter fun s => decide (s.contract_date < today - 365)).map
                PropertySale.sale_price)) /
             pyMedian ((sales.filter fun s => decide (s.contract_date < today - 365)).map
               PropertySale.sale_price) * 100))
        else none := by
  cases sales with
  | nil => rfl
  | cons a t =>
    simp only [calculate_stats]
    by_cases hfe : ((a :: t).filter fun s => decide (s.contract_date < today - 365)) = []
    · rw [hfe]
      simp [truthyQ]
    · have hmape : (((a :: t).filter fun s => decide (s.contract_date < today - 365)).map
          PropertySale.sale_price) ≠ [] := by
        simpa using hfe
      rw [if_pos hmape]
      by_cases hcm : pyMedian ((a :: t).map PropertySale.sale_price) = 0
      · conv_lhs => rw [if_neg (fun hAnd => hAnd.1 hcm)]
        rw [if_neg (fun hAnd => hAnd.1 hcm)]
      · by_cases hom : pyMedian (((a :: t).filter fun s =>
            decide (s.contract_date < today - 365)).map PropertySale.sale_price) = 0
        · conv_lhs => rw [if_neg (fun hAnd =>
            absurd hom (by simpa [truthyQ] using hAnd.2))]
          rw [if_neg (fun hAnd => hAnd.2.1.2 hom)]
        · conv_lhs => rw [if_pos ⟨hcm, by simp [truthyQ, hom]⟩]
          dsimp only
          simp only [Option.getD_some]
          by_cases hpc : (pyMedian ((a :: t).map PropertySale.sale_price) -
              pyMedian (((a :: t).filter fun s => decide (s.contract_date < today - 365)).map
                PropertySale.sale_price)) /
              pyMedian (((a :: t).filter fun s => decide (s.contract_date < today - 365)).map
                PropertySale.sale_price) * 100 = 0
          · rw [if_neg (fun hne => hne hpc), if_neg (fun hAnd => hAnd.2.2 hpc)]
          · rw [if_pos hpc, if_pos ⟨hcm, ⟨hfe, hom⟩, hpc⟩]



/-- A sale inside the last-12-months window of the trend counterexample. -/
def sale_recent : PropertySale := { sale_price := 200, contract_date := 20183 }

/-- A sale older than 12 months in the trend counterexample. -/
def sale_old : PropertySale := { sale_price := 100, contract_date := 19793 }

/-- C5 counterexample: one sale at 200 within the last 12 months and one at
100 older than 12 months. The claimed formula gives
(200 − 100)/100 × 100 = 100, but the source computes the change from the
median of all sales (150), yielding 50. -/
theorem price_trend_counterexample :
    (calculate_stats 20193 [sale_recent, sale_old]).price_change_percent = some 50 ∧
    pyMedian (([sale_recent, sale_old].filter fun s =>
        decide (20193 - 365 ≤ s.contract_date)).map PropertySale.sale_price) = 200 ∧
    pyMedian (([sale_recent, sale_old].filter fun s =>
        decide (s.contract_date < 20193 - 365)).map PropertySale.sale_price) = 100 ∧
    ¬ ((50 : ℚ) = (200 - 100) / 100 * 100) := by
  have hfo : ([sale_recent, sale_old].filter fun s =>
      decide (s.contract_date < 20193 - 365)) = [sale_old] := by
    simp [List.filter, sale_recent, sale_old]
  have hfr : ([sale_recent, sale_old].filter fun s =>
      decide (20193 - 365 ≤ s.contract_date)) = [sale_recent] := by
    simp [List.filter, sale_recent, sale_old]
  have hmall : pyMedian ([sale_recent, sale_old].map PropertySale.sale_price) = 150 := by
    norm_num [sale_recent, sale_old, pyMedian, List.insertionSort, List.orderedInsert]
  refine ⟨?_, ?_, ?_, by norm_num⟩
  · rw [price_trend_amended]
    rw [hfo, hmall]
    norm_num [sale_old, pyMedian, List.insertionSort]
    norm_num [pyRound1, roundHalfEven, Int.fract, round_eq]
  · rw [hfr]
    norm_num [sale_recent, pyMedian, List.insertionSort]
  · rw [hfo]
    norm_num [sale_old, pyMedian, List.insertionSort]




/-- C6 (amended): for every non-empty sales corpus the series has exactly 12
entries, ordered oldest to newest with strictly increasing bucket start
dates 30 days apart; entry `i` is labelled with the month of its bucket
start `month_start(today) − 30·(11−i)` days and counts the sales whose
contract date falls in `[start, month_start(start + 32 days))`. The buckets
are anchored to the current month start but drift by 30-day steps, so they
are not exact calendar months: labels can repeat (the series need not be
strictly increasing in month) and buckets can overlap, so the 12 counts can
sum to more than the total sales count; for the empty corpus the series is
unset rather than 12 entries long. -/
theorem monthly_volumes_amended (today : ℤ) (sales : List PropertySale) :
    ((calculate_stats today sales).monthly_volumes =
      match sales with
      | [] => none
      | _ :: _ => some (monthly_volumes_of today sales)) ∧
    (monthly_volumes_of today sales).length = 12 ∧
    (∀ i : ℕ, i < 12 →
      (monthly_volumes_of today sales).getD i { month := (0, 0), count := 0 } =
        { month := month_label (month_start_of today - 30 * ((11 - i : ℕ) : ℤ))
          count := (sales.filter fun s =>
              decide (month_start_of today - 30 * ((11 - i : ℕ) : ℤ) ≤ s.contract_date) &&
              decide (s.contract_date <
                month_start_of (month_start_of today - 30 * ((11 - i : ℕ) : ℤ) + 32))).length }) ∧
    (∀ i j : ℕ, i < j → j < 12 →
      month_start_of today - 30 * ((11 - i : ℕ) : ℤ)
        < month_start_of today - 30 * ((11 - j : ℕ) : ℤ)) := by
  refine ⟨?_, by rfl, ?_, ?_⟩
  · cases sales with
    | nil => rfl
    | cons a t => rfl
  · intro i hi
    interval_cases i <;> rfl
  · intro i j hij hj
    omega



/-- The single sale (contract date 2025-01-31) of the monthly-volume counterexample. -/
def mv_sale : PropertySale := { sale_price := 100, contract_date := 20119 }

/-- C6 counterexample: with today = 2025-04-15 and a single sale dated
2025-01-31, buckets 8 and 9 (oldest-first) are [2025-01-01, 2025-02-01) and
[2025-01-31, 2025-03-01): both are labelled "2025-01" (months not strictly
increasing) and both count the sale, so the counts sum to 2 > 1 = total. -/
theorem monthly_volumes_counterexample :
    (calculate_stats 20193 [mv_sale]).monthly_volumes
      = some (monthly_volumes_of 20193 [mv_sale]) ∧
    (calculate_stats 20193 [mv_sale]).total_sales = 1 ∧
    ((monthly_volumes_of 20193 [mv_sale]).map MonthEntry.count).sum = 2 ∧
    ¬ (((monthly_volumes_of 20193 [mv_sale]).map MonthEntry.count).sum
        ≤ (calculate_stats 20193 [mv_sale]).total_sales) ∧
    ((monthly_volumes_of 20193 [mv_sale]).map MonthEntry.month).getD 8 (0, 0) = (2025, 1) ∧
    ((monthly_volumes_of 20193 [mv_sale]).map MonthEntry.month).getD 9 (0, 0) = (2025, 1) ∧
    days_from_civil 2025 4 15 = 20193 ∧ days_from_civil 2025 1 31 = 20119 := by
  refine ⟨rfl, rfl, ?_, ?_, ?_, ?_, ?_, ?_⟩ <;> decide

/-- C6 witness: the amended theorem at today = 2025-04-15 with the single
2025-01-31 sale; the oldest entry's bucket starts in May 2024. -/
theorem monthly_volumes_amended_witness :
    (monthly_volumes_of 20193 [mv_sale]).length = 12 ∧
    (monthly_volumes_of 20193 [mv_sale]).getD 0 { month := (0, 0), count := 0 } =
      { month := month_label (month_start_of 20193 - 30 * ((11 - 0 : ℕ) : ℤ))
        count := ([mv_sale].filter fun s =>
            decide (month_start_of 20193 - 30 * ((11 - 0 : ℕ) : ℤ) ≤ s.contract_date) &&
            decide (s.contract_date <
              month_start_of (month_start_of 20193 - 30 * ((11 - 0 : ℕ) : ℤ) + 32))).length } ∧
    month_label (month_start_of 20193 - 30 * ((11 - 0 : ℕ) : ℤ)) = (2024, 5) :=
  ⟨(monthly_volumes_amended 20193 [mv_sale]).2.1,
   (monthly_volumes_amended 20193 [mv_sale]).2.2.1 0 (by norm_num),
   by decide⟩




/-- C7 (amended): when every query step yields no data, the QLD resolver and
the generic resolver for the other states return a sentinel `ZoningInfo`
with `zone_code = "Unknown"`, category `special_purpose` and a
human-readable source noting the failure — but the NSW resolver returns
null (`None`), and it is the orchestrator (`analyze_property`) that
substitutes a fresh sentinel, so the analysis-level zoning is never
null/absent. -/
theorem zoning_sentinel_amended (state : AustralianState) (qld_env : QldZoningEnv)
    (h1 : qld_env.lga_features = []) (h2 : qld_env.bcc_features = [])
    (h3 : qld_env.land_use_features = []) :
    get_zoning AustralianState.NSW [] qld_env = none ∧
    (get_zoning AustralianState.QLD [] qld_env).isSome = true ∧
    (∀ z, get_zoning AustralianState.QLD [] qld_env = some z →
      z.zone_code = "Unknown" ∧ z.zone_category = ZoneCategory.special_purpose ∧
      z.source = some "Queensland Planning Framework") ∧
    (state ≠ AustralianState.NSW → state ≠ AustralianState.QLD →
      (get_zoning state [] qld_env).isSome = true ∧
      ∀ z, get_zoning state [] qld_env = some z →
        z.zone_code = "Unknown" ∧ z.zone_category = ZoneCategory.special_purpose ∧
        z.source = some (state.value ++ " Planning Portal")) ∧
    (analyze_property_zoning AustralianState.NSW [] qld_env).zone_code = "Unknown" ∧
    (analyze_property_zoning AustralianState.NSW [] qld_env).zone_category
      = ZoneCategory.special_purpose := by
  obtain ⟨lf, bf, luf⟩ := qld_env
  simp only at h1 h2 h3
  subst h1 h2 h3
  have hqld : get_zoning AustralianState.QLD []
      { lga_features := [], bcc_features := [], land_use_features := [] } =
      some
        { zone_code := "Unknown"
          zone_name := "Zoning data not available"
          zone_category := ZoneCategory.special_purpose
          description := some "Please check local council planning scheme for zoning information."
          lga_name := none
          source := some "Queensland Planning Framework" } := by
    rfl
  refine ⟨rfl, ?_, ?_, ?_, rfl, rfl⟩
  · rw [hqld]
    rfl
  · intro z hz
    rw [hqld] at hz
    injection hz with e
    subst e
    exact ⟨rfl, rfl, rfl⟩
  · intro hns hnq
    cases state with
    | NSW => exact absurd rfl hns
    | QLD => exact absurd rfl hnq
    | VIC => exact ⟨rfl, fun z hz => by
        simp only [get_zoning, get_generic_zoning, Option.some_inj] at hz
        subst hz
        exact ⟨rfl, rfl, rfl⟩⟩
    | SA => exact ⟨rfl, fun z hz => by
        simp only [get_zoning, get_generic_zoning, Option.some_inj] at hz
        subst hz
        exact ⟨rfl, rfl, rfl⟩⟩
    | WA => exact ⟨rfl, fun z hz => by
        simp only [get_zoning, get_generic_zoning, Option.some_inj] at hz
        subst hz
        exact ⟨rfl, rfl, rfl⟩⟩
    | TAS => exact ⟨rfl, fun z hz => by
        simp only [get_zoning, get_generic_zoning, Option.some_inj] at hz
        subst hz
        exact ⟨rfl, rfl, rfl⟩⟩
    | NT => exact ⟨rfl, fun z hz => by
        simp only [get_zoning, get_generic_zoning, Option.some_inj] at hz
        subst hz
        exact ⟨rfl, rfl, rfl⟩⟩
    | ACT => exact ⟨rfl, fun z hz => by
        simp only [get_zoning, get_generic_zoning, Option.some_inj] at hz
        subst hz
        exact ⟨rfl, rfl, rfl⟩⟩

/-- C7 counterexample: for NSW with an empty principal-zoning query result,
`get_zoning` returns `None` — not a sentinel — contradicting the claim
that the resolver never returns a null/absent result. -/
theorem zoning_sentinel_counterexample :
    get_zoning AustralianState.NSW [] {} = none ∧
    ¬ (get_zoning AustralianState.NSW [] {}).isSome = true := ⟨rfl, by decide⟩

/-- C7 witness: the amended theorem at the all-empty query environment:
QLD and VIC resolve to a sentinel, and the orchestrator-substituted NSW
zoning has code "Unknown". -/
theorem zoning_sentinel_amended_witness :
    (get_zoning AustralianState.QLD [] {}).isSome = true ∧
    (analyze_property_zoning AustralianState.NSW [] {}).zone_code = "Unknown" ∧
    (get_zoning AustralianState.VIC [] {}).isSome = true :=
  ⟨(zoning_sentinel_amended AustralianState.VIC {} rfl rfl rfl).2.1,
   (zoning_sentinel_amended AustralianState.VIC {} rfl rfl rfl).2.2.2.2.1,
   ((zoning_sentinel_amended AustralianState.VIC {} rfl rfl rfl).2.2.2.1
      (by decide) (by decide)).1⟩




/-- C9: for every state and any resolved hazard and heritage lists, the
overlay summary's environmental list is empty (the environmental query is a
stub returning no records for every state), so `total_overlays` equals the
number of hazard overlays plus the number of heritage items. -/
theorem overlays_environmental_empty (state : AustralianState)
    (hazards : List HazardOverlay) (heritage : List HeritageItem) :
    (get_overlays state hazards heritage).environmental = [] ∧
    get_environmental_overlays state = [] ∧
    (get_overlays state hazards heritage).total_overlays
      = hazards.length + heritage.length := by
  refine ⟨rfl, rfl, ?_⟩
  simp [get_overlays, get_environmental_overlays]

/-- C10: `buildable_area_sqm` is set only when the lot area is positive
(given nonnegative areas) and both the front and the rear setback values are
present and non-zero; since setbacks only ever come from the static category
table — where commercial gets a single front setback of 0.0 and categories
other than residential/commercial get none — `buildable_area_sqm` is unset
for every non-residential zone category. -/
theorem buildable_area_invariant (controls : DevelopmentControlsSet)
    (lot : Option ℚ) (zone_code : String)
    (hlot : ∀ v, lot = some v → 0 ≤ v)
    (hsb : controls.setbacks = get_default_setbacks zone_code) :
    ((calculate_building_envelope controls lot).buildable_area_sqm.isSome = true →
      (∃ v, lot = some v ∧ 0 < v) ∧
      truthyQ (extract_setback controls.setbacks ControlType.setback_front) = true ∧
      truthyQ (extract_setback controls.setbacks ControlType.setback_rear) = true) ∧
    (get_zone_category zone_code ≠ ZoneCategory.residential →
      (calculate_building_envelope controls lot).buildable_area_sqm = none) := by
  constructor
  · intro h
    simp only [calculate_building_envelope] at h
    by_cases hc : truthyQ lot = true ∧
        truthyQ (extract_setback controls.setbacks ControlType.setback_front) = true ∧
        truthyQ (extract_setback controls.setbacks ControlType.setback_rear) = true
    · obtain ⟨hl, hf, hr⟩ := hc
      rcases lot with _ | v
      · simp [truthyQ] at hl
      · refine ⟨⟨v, rfl, ?_⟩, hf, hr⟩
        have hv0 : v ≠ 0 := by simpa [truthyQ] using hl
        exact lt_of_le_of_ne (hlot v rfl) (Ne.symm hv0)
    · rw [if_neg hc] at h
      simp at h
  · intro hcat
    have hfront : truthyQ (extract_setback controls.setbacks ControlType.setback_front)
        = false := by
      rw [hsb, get_default_setbacks, if_neg hcat]
      split_ifs with hcom
      · simp [extract_setback, truthyQ]
      · simp [extract_setback, truthyQ]
    simp only [calculate_building_envelope]
    rw [if_neg (fun hc => by simp [hfront] at hc)]

/-- C10 witness: the theorem applied to the commercial zone B1 (front
setback 0.0) with a 600 sqm lot: the buildable area is unset. -/
theorem buildable_area_invariant_witness :
    (calculate_building_envelope (get_default_controls "B1") (some 600)).buildable_area_sqm
      = none ∧ get_zone_category "B1" = ZoneCategory.commercial :=
  ⟨(buildable_area_invariant (get_default_controls "B1") (some 600) "B1"
      (fun v hv => by injection hv with e; rw [← e]; norm_num)
      rfl).2 (by decide),
   by decide⟩




theorem calculate_distance_symm (a b c d : ℝ) :
    calculate_distance a b c d = calculate_distance c d a b := by
  simp only [calculate_distance, radians]
  have e1 : ∀ x y : ℝ, Real.sin ((y - x) * Real.pi / 180 / 2) ^ 2
      = Real.sin ((x - y) * Real.pi / 180 / 2) ^ 2 := by
    intro x y
    rw [show (y - x) * Real.pi / 180 / 2 = -((x - y) * Real.pi / 180 / 2) by ring,
      Real.sin_neg]
    ring
  rw [e1 a c, e1 b d,
    mul_comm (Real.cos (a * Real.pi / 180)) (Real.cos (c * Real.pi / 180))]

theorem atan2_sqrt_eq_zero_iff (A : ℝ) (hA : 0 ≤ A) :
    atan2 (Real.sqrt A) (Real.sqrt (1 - A)) = 0 ↔ A = 0 := by
  by_cases h1 : A < 1
  · have hx : 0 < Real.sqrt (1 - A) := Real.sqrt_pos.mpr (by linarith)
    rw [atan2, if_pos hx, Real.arctan_eq_zero_iff, div_eq_zero_iff]
    constructor
    · rintro (h | h)
      · exact (Real.sqrt_eq_zero hA).mp h
      · exact absurd h (ne_of_gt hx)
    · intro h
      left
      rw [h, Real.sqrt_zero]
  · have hx : Real.sqrt (1 - A) = 0 := Real.sqrt_eq_zero'.mpr (by linarith)
    have hy : 0 < Real.sqrt A := Real.sqrt_pos.mpr (by linarith)
    rw [atan2, if_neg (by simp [hx]), if_neg (by simp [hx, not_lt.mpr (le_refl (0:ℝ))]),
      if_pos hy]
    constructor
    · intro h
      exact absurd h (ne_of_gt (by positivity))
    · intro h
      exfalso
      linarith



theorem haversine_equator_approx :
    |calculate_distance 0 0 (1/100) 0 - 1113| ≤ 1113 / 100 := by
  have hp := Real.pi_pos
  set x : ℝ := Real.pi / 36000 with hx
  have hx0 : 0 ≤ x := by positivity
  have hxsmall : x < Real.pi / 2 := by
    rw [hx]
    nlinarith
  have hxpi : x ≤ Real.pi := by
    rw [hx]
    nlinarith
  have hsin : 0 ≤ Real.sin x := Real.sin_nonneg_of_nonneg_of_le_pi hx0 hxpi
  have hcospos : 0 < Real.cos x :=
    Real.cos_pos_of_mem_Ioo ⟨by nlinarith, hxsmall⟩
  have hd : calculate_distance 0 0 (1/100) 0 = 6371000 * (2 * x) := by
    simp only [calculate_distance, radians]
    have e0 : ((0:ℝ) - 0) * Real.pi / 180 / 2 = 0 := by ring
    have e1 : ((1/100 : ℝ) - 0) * Real.pi / 180 / 2 = x := by
      rw [hx]; ring
    rw [e0, e1, Real.sin_zero]
    have eA : Real.sin x ^ 2 +
        Real.cos (0 * Real.pi / 180) * Real.cos (1/100 * Real.pi / 180) * 0 ^ 2
        = Real.sin x ^ 2 := by ring
    rw [eA]
    have e2 : Real.sqrt (Real.sin x ^ 2) = Real.sin x := Real.sqrt_sq hsin
    have e3 : (1 : ℝ) - Real.sin x ^ 2 = Real.cos x ^ 2 := by
      nlinarith [Real.sin_sq_add_cos_sq x]
    rw [e2, e3, Real.sqrt_sq (le_of_lt hcospos)]
    rw [atan2, if_pos hcospos, ← Real.tan_eq_sin_div_cos,
      Real.arctan_tan (by nlinarith) hxsmall]
  rw [hd, hx, abs_le]
  constructor <;> nlinarith [Real.pi_gt_d2, Real.pi_lt_d2]



/-- C8 (amended): the haversine distance is symmetric for all coordinate
pairs, and for two points 0.01° apart along a meridian at the equator it is
6,371,000·π/18000 ≈ 1,112 m, within 1% of 1,113 m; the zero-iff-equal
property holds for latitudes strictly inside (−90, 90) and longitudes in
(−180, 180] — at the poles (and across the antimeridian with both ±180
admitted) distinct valid coordinate pairs denote the same physical point and
get distance 0, so the original unrestricted claim fails. -/
theorem haversine_amended (lat1 lon1 lat2 lon2 : ℝ)
    (h1a : -90 < lat1) (h1b : lat1 < 90) (h2a : -90 < lat2) (h2b : lat2 < 90)
    (h3a : -180 < lon1) (h3b : lon1 ≤ 180) (h4a : -180 < lon2) (h4b : lon2 ≤ 180) :
    (∀ a b c d : ℝ, calculate_distance a b c d = calculate_distance c d a b) ∧
    (calculate_distance lat1 lon1 lat2 lon2 = 0 ↔ (lat1 = lat2 ∧ lon1 = lon2)) ∧
    |calculate_distance 0 0 (1/100) 0 - 1113| ≤ 1113 / 100 := by
  refine ⟨calculate_distance_symm, ?_, haversine_equator_approx⟩
  have hp := Real.pi_pos
  have hcos1 : 0 < Real.cos (lat1 * Real.pi / 180) :=
    Real.cos_pos_of_mem_Ioo ⟨by nlinarith, by nlinarith⟩
  have hcos2 : 0 < Real.cos (lat2 * Real.pi / 180) :=
    Real.cos_pos_of_mem_Ioo ⟨by nlinarith, by nlinarith⟩
  simp only [calculate_distance, radians]
  have hA0 : 0 ≤ Real.sin ((lat2 - lat1) * Real.pi / 180 / 2) ^ 2 +
      Real.cos (lat1 * Real.pi / 180) * Real.cos (lat2 * Real.pi / 180) *
        Real.sin ((lon2 - lon1) * Real.pi / 180 / 2) ^ 2 :=
    add_nonneg (sq_nonneg _)
      (mul_nonneg (mul_nonneg hcos1.le hcos2.le) (sq_nonneg _))
  have hchain : (6371000 : ℝ) *
      (2 * atan2
        (Real.sqrt (Real.sin ((lat2 - lat1) * Real.pi / 180 / 2) ^ 2 +
          Real.cos (lat1 * Real.pi / 180) * Real.cos (lat2 * Real.pi / 180) *
            Real.sin ((lon2 - lon1) * Real.pi / 180 / 2) ^ 2))
        (Real.sqrt (1 - (Real.sin ((lat2 - lat1) * Real.pi / 180 / 2) ^ 2 +
          Real.cos (lat1 * Real.pi / 180) * Real.cos (lat2 * Real.pi / 180) *
            Real.sin ((lon2 - lon1) * Real.pi / 180 / 2) ^ 2)))) = 0 ↔
      (Real.sin ((lat2 - lat1) * Real.pi / 180 / 2) ^ 2 +
          Real.cos (lat1 * Real.pi / 180) * Real.cos (lat2 * Real.pi / 180) *
            Real.sin ((lon2 - lon1) * Real.pi / 180 / 2) ^ 2) = 0 := by
    rw [← atan2_sqrt_eq_zero_iff _ hA0]
    constructor
    · intro h
      rcases mul_eq_zero.mp h with h | h
      · norm_num at h
      · rcases mul_eq_zero.mp h with h | h
        · norm_num at h
        · exact h
    · intro h
      rw [h]
      ring
  rw [hchain]
  have hsplit : (Real.sin ((lat2 - lat1) * Real.pi / 180 / 2) ^ 2 +
      Real.cos (lat1 * Real.pi / 180) * Real.cos (lat2 * Real.pi / 180) *
        Real.sin ((lon2 - lon1) * Real.pi / 180 / 2) ^ 2) = 0 ↔
      Real.sin ((lat2 - lat1) * Real.pi / 180 / 2) = 0 ∧
      Real.sin ((lon2 - lon1) * Real.pi / 180 / 2) = 0 := by
    constructor
    · intro h
      have hs2 : 0 ≤ Real.cos (lat1 * Real.pi / 180) * Real.cos (lat2 * Real.pi / 180) *
          Real.sin ((lon2 - lon1) * Real.pi / 180 / 2) ^ 2 :=
        mul_nonneg (mul_nonneg hcos1.le hcos2.le) (sq_nonneg _)
      have t1 : Real.sin ((lat2 - lat1) * Real.pi / 180 / 2) ^ 2 = 0 := by
        nlinarith [sq_nonneg (Real.sin ((lat2 - lat1) * Real.pi / 180 / 2))]
      have t2 : Real.cos (lat1 * Real.pi / 180) * Real.cos (lat2 * Real.pi / 180) *
          Real.sin ((lon2 - lon1) * Real.pi / 180 / 2) ^ 2 = 0 := by
        nlinarith [sq_nonneg (Real.sin ((lat2 - lat1) * Real.pi / 180 / 2))]
      refine ⟨pow_eq_zero_iff (by norm_num) |>.mp t1, ?_⟩
      have t3 : Real.sin ((lon2 - lon1) * Real.pi / 180 / 2) ^ 2 = 0 := by
        rcases mul_eq_zero.mp t2 with h2 | h2
        · rcases mul_eq_zero.mp h2 with h3 | h3
          · exact absurd h3 (ne_of_gt hcos1)
          · exact absurd h3 (ne_of_gt hcos2)
        · exact h2
      exact pow_eq_zero_iff (by norm_num) |>.mp t3
    · intro h
      rw [h.1, h.2]
      ring
  rw [hsplit]
  have hlat : Real.sin ((lat2 - lat1) * Real.pi / 180 / 2) = 0 ↔ lat1 = lat2 := by
    rw [Real.sin_eq_zero_iff_of_lt_of_lt (by nlinarith) (by nlinarith)]
    constructor
    · intro h
      have h2 : (lat2 - lat1) * Real.pi = 0 := by linarith
      rcases mul_eq_zero.mp h2 with h3 | h3
      · linarith
      · exact absurd h3 (ne_of_gt hp)
    · intro h
      rw [h]
      ring
  have hlon : Real.sin ((lon2 - lon1) * Real.pi / 180 / 2) = 0 ↔ lon1 = lon2 := by
    rw [Real.sin_eq_zero_iff_of_lt_of_lt (by nlinarith) (by nlinarith)]
    constructor
    · intro h
      have h2 : (lon2 - lon1) * Real.pi = 0 := by linarith
      rcases mul_eq_zero.mp h2 with h3 | h3
      · linarith
      · exact absurd h3 (ne_of_gt hp)
    · intro h
      rw [h]
      ring
  rw [hlat, hlon]



/-- C8 counterexample: the valid coordinate pairs (90, 0) and (90, 90) are
distinct but both denote the north pole, and the computed distance is 0,
refuting "zero iff A = B" over the full claimed ranges. -/
theorem haversine_zero_counterexample :
    calculate_distance 90 0 90 90 = 0 ∧ ¬ ((90:ℝ) = 90 ∧ (0:ℝ) = 90) := by
  constructor
  · simp only [calculate_distance, radians]
    have e0 : ((90:ℝ) - 90) * Real.pi / 180 / 2 = 0 := by ring
    have hc : Real.cos ((90:ℝ) * Real.pi / 180) = 0 := by
      rw [show (90:ℝ) * Real.pi / 180 = Real.pi / 2 by ring, Real.cos_pi_div_two]
    rw [e0, Real.sin_zero, hc]
    have eA : (0:ℝ) ^ 2 + 0 * 0 * Real.sin (((90:ℝ) - 0) * Real.pi / 180 / 2) ^ 2 = 0 := by
      ring
    rw [eA, Real.sqrt_zero]
    rw [show (1:ℝ) - 0 = 1 by ring, Real.sqrt_one]
    rw [atan2, if_pos one_pos]
    rw [show (0:ℝ) / 1 = 0 by ring, Real.arctan_zero]
    ring
  · intro h
    norm_num at h

/-- C8 witness: the amended theorem applied at the point (10, 20) paired
with itself: the distance is 0. -/
theorem haversine_amended_witness :
    calculate_distance 10 20 10 20 = 0 :=
  (haversine_amended 10 20 10 20 (by norm_num) (by norm_num) (by norm_num) (by norm_num)
    (by norm_num) (by norm_num) (by norm_num) (by norm_num)).2.1.mpr ⟨rfl, rfl⟩


end SiteLens
